import Mathlib

/-!
SysTick driver (ARM Cortex-M4, TM4C123GH6PM).

A shallow embedding of `SysTick_Driver/SysTick.c` and `SysTick.h`, followed by the
properties proved about it.

Conventions of the embedding.

* C integers are mathematical integers with the reduction written out: an `int`
  expression is wrapped to 32 bits two's complement (`wrapInt`), a conversion to
  `uint32` is a reduction modulo `2^32` (`toUint32`), the `uint16` parameter is a
  reduction modulo `2^16`.
* The three memory-mapped registers are 32-bit cells that hold the present content of
  the hardware register. Bit 16 of the control register is the count flag: the
  hardware sets it, a load of the control register returns it and clears it, a store
  to the control register leaves it as it is (it is read-only), and a store to the
  current register, which resets the count, clears it. So the read-modify-write
  statements of `SysTick_Stop`, `SysTick_Start`, `SysTick_Init` and
  `SysTick_StartBusyWait` act on the live register.
* The hardware runs beside the driver. Between two calls it is a step of its own
  (`hardwareCount`, in `Action`); inside the poll loop of `SysTick_StartBusyWait` the
  values it returns to the successive loads are an input of the model.
* A function pointer is its address; `NULL_PTR` is the address 0. The body of the
  callee is code outside the driver: a call is recorded, its effect is not modelled.
* The machine carries a history (`trace`) of the register stores, the poll loads and
  the calls through the callback pointer, oldest first.
-/

namespace SysTick

/-! Section: Machine integers -/

/-- Value of an `int` result on the 32-bit target: two's complement wrap-around. -/
def wrapInt (x : Int) : Int := (x + 2147483648) % 4294967296 - 2147483648

/-- Conversion of an integer value to `uint32`. -/
def toUint32 (x : Int) : Nat := (x % 4294967296).toNat

/-- Modelled from the spec: the typedef `uint16` of the missing `std_types.h`
("duration_ms: unsigned 16-bit"). Conversion of a value to `uint16`. -/
def toUint16 (x : Nat) : Nat := x % 65536

/-! Section: `SysTick.h` -/

/-- Macro `#define SYSTICK_CTRL_ENABLE_BIT (1<<0)` -/
def SYSTICK_CTRL_ENABLE_BIT : Nat := 1 <<< 0

/-- Macro `#define SYSTICK_CTRL_INTEN_BIT (1<<1)` -/
def SYSTICK_CTRL_INTEN_BIT : Nat := 1 <<< 1

/-- Macro `#define SYSTICK_CTRL_CLK_SRC_BIT (1<<2)` -/
def SYSTICK_CTRL_CLK_SRC_BIT : Nat := 1 <<< 2

/-- Modelled from the spec: the macro `NULL_PTR` of the missing `std_types.h` (the
"empty" callback slot): the null address. -/
def NULL_PTR : Nat := 0

/-- Modelled from the spec: the count flag of the control register ("count-flag@16"),
the bit the poll loop of `SysTick_StartBusyWait` tests as `(1<<16)`. -/
def COUNT_FLAG : Nat := 1 <<< 16

/-- A 32-bit register value with the count flag (bit 16) cleared: the conjunction with
`~COUNT_FLAG`, that is `0xFFFEFFFF`. -/
def clearCountFlag (v : Nat) : Nat := v &&& toUint32 (~~~ (COUNT_FLAG : Int))

/-! Section: Registers and machine state -/

/-- Names of the three SysTick registers. -/
inductive Reg where
  | CTRL
  | RELOAD
  | CURRENT
deriving DecidableEq

/-- Modelled from the spec: the register macros of the missing
`tm4c123gh6pm_registers.h`, each a `volatile uint32` lvalue: "three addressable
registers — control (bitfields: enable@0, interrupt-enable@1, clock-source@2,
count-flag@16, read-only/self-clearing-on-read), reload (24-bit), current (24-bit,
writable to reset)". Each field is the present content of the register; bit 16 of
`SYSTICK_CTRL_REG` is the count flag, "set each time the counter reaches zero, cleared
on read". How loads and stores act on the fields is in `load` and `store`, what the
hardware does to them in `hardwareCount`. The countdown of the current register and the
24-bit width of reload and current are not modelled: the fields hold what the driver
stored, and every value the driver stores there is below `2^24`. -/
structure Regs where
  SYSTICK_CTRL_REG : Nat
  SYSTICK_RELOAD_REG : Nat
  SYSTICK_CURRENT_REG : Nat
deriving DecidableEq

/-- Observable actions of the driver. -/
inductive Event where
  | store (r : Reg) (v : Nat)
  | poll (v : Nat)
  | call (f : Nat)
deriving DecidableEq

/-- State of the machine: the registers, the file-scope variable
`g_SysTickCallBackPtr`, and the history of the driver's actions. -/
structure Machine where
  regs : Regs
  g_SysTickCallBackPtr : Nat
  trace : List Event
deriving DecidableEq

/-- Load of a register: the value read, and the machine after the read. The value is
the present content of the register, count flag included; reading the control register
clears its count flag ("self-clearing-on-read"). -/
def load (s : Machine) : Reg → Nat × Machine
  | Reg.CTRL =>
    (s.regs.SYSTICK_CTRL_REG,
      { s with regs := { s.regs with
          SYSTICK_CTRL_REG := clearCountFlag s.regs.SYSTICK_CTRL_REG } })
  | Reg.RELOAD => (s.regs.SYSTICK_RELOAD_REG, s)
  | Reg.CURRENT => (s.regs.SYSTICK_CURRENT_REG, s)

/-- Store of a value to a register (`REG = v;`), converted to the register's type. The
history records the value stored. The control register takes every bit of it but the
count flag, which is read-only and stays as it is. A store to the current register
("writable to reset") puts the value there and restarts the count, which clears the
count flag of the control register (TM4C123GH6PM data sheet, register STCURRENT:
clearing this register also clears the COUNT bit of the STCTRL register); the driver
only ever stores 0 there. -/
def store (s : Machine) (r : Reg) (v : Nat) : Machine :=
  let w := v % 4294967296
  { s with
    regs :=
      match r with
      | Reg.CTRL =>
        { s.regs with
          SYSTICK_CTRL_REG := clearCountFlag w ||| (s.regs.SYSTICK_CTRL_REG &&& COUNT_FLAG) }
      | Reg.RELOAD => { s.regs with SYSTICK_RELOAD_REG := w }
      | Reg.CURRENT =>
        { s.regs with
          SYSTICK_CTRL_REG := clearCountFlag s.regs.SYSTICK_CTRL_REG
          SYSTICK_CURRENT_REG := w }
    trace := s.trace ++ [Event.store r w] }

/-- The hardware counts to zero: when the timer is enabled (bit 0 of the control
register) the count flag is set ("set each time the counter reaches zero"). -/
def hardwareCount (s : Machine) : Machine :=
  if s.regs.SYSTICK_CTRL_REG.testBit 0 then
    { s with regs := { s.regs with
        SYSTICK_CTRL_REG := s.regs.SYSTICK_CTRL_REG ||| COUNT_FLAG } }
  else s

/-- Power-on state of the driver's own data: `g_SysTickCallBackPtr = NULL_PTR`, with
the given register contents and an empty history. -/
def initial (r : Regs) : Machine :=
  { regs := r, g_SysTickCallBackPtr := NULL_PTR, trace := [] }

/-! Section: `SysTick.c` -/

/-- The expression `16000 * a_TimeInMilliSeconds - 1`: the `uint16` operand is promoted
to `int`, the constants are `int`, so the product and the difference are `int`. -/
def ticksExpr (a_TimeInMilliSeconds : Nat) : Int :=
  wrapInt (wrapInt (16000 * (a_TimeInMilliSeconds : Int)) - 1)

/-- The guard of `SysTick_Init` and `SysTick_StartBusyWait`:
`((16000*a - 1) > 0x00FFFFFF) || ((16000*a - 1) < 0x01)`, both comparisons in `int`. -/
def outOfRange (a_TimeInMilliSeconds : Nat) : Bool :=
  decide (ticksExpr a_TimeInMilliSeconds > 0x00FFFFFF) ||
    decide (ticksExpr a_TimeInMilliSeconds < 0x01)

/-- Function `void SysTick_Init(uint16 a_TimeInMilliSeconds)` -/
def SysTick_Init (s : Machine) (a_TimeInMilliSeconds : Nat) : Machine :=
  let a := toUint16 a_TimeInMilliSeconds
  if outOfRange a then s
  else
    let s := store s Reg.CTRL 0
    let s := store s Reg.RELOAD (toUint32 (ticksExpr a))
    let s := store s Reg.CURRENT 0
    store (load s Reg.CTRL).2 Reg.CTRL
      ((load s Reg.CTRL).1 |||
        (SYSTICK_CTRL_ENABLE_BIT ||| SYSTICK_CTRL_INTEN_BIT ||| SYSTICK_CTRL_CLK_SRC_BIT))

/-- Result of a call that may still be inside its loop: the state reached, and whether
the call has returned. -/
structure Run where
  state : Machine
  returned : Bool
deriving DecidableEq

/-- The loop `while(!(SYSTICK_CTRL_REG & (1<<16)));` against the values the hardware
returns to its successive loads of the control register. The loop is left at the first
load with bit 16 set; when the values are used up the call is still in the loop. The
hardware runs during the loop, so the value of each load is an input; a count flag it
sets is cleared by the load that reads it, which leaves the register content as it was
before. -/
def pollLoop (s : Machine) : List Nat → Run
  | [] => { state := s, returned := false }
  | v :: rest =>
    let s := { s with trace := s.trace ++ [Event.poll v] }
    if v &&& (1 <<< 16) ≠ 0 then { state := s, returned := true }
    else pollLoop s rest

/-- Function `void SysTick_StartBusyWait(uint16 a_TimeInMilliSeconds)`; `reads` are the values
returned to the loads of the poll loop. -/
def SysTick_StartBusyWait (reads : List Nat) (s : Machine) (a_TimeInMilliSeconds : Nat) :
    Run :=
  let a := toUint16 a_TimeInMilliSeconds
  if outOfRange a then { state := s, returned := true }
  else
    let s := store s Reg.CTRL 0
    let s := store s Reg.RELOAD (toUint32 (ticksExpr a))
    let s := store s Reg.CURRENT 0
    let s := store (load s Reg.CTRL).2 Reg.CTRL
      ((load s Reg.CTRL).1 ||| (SYSTICK_CTRL_ENABLE_BIT ||| SYSTICK_CTRL_CLK_SRC_BIT))
    pollLoop s reads

/-- Function `void SysTick_Handler(void)` -/
def SysTick_Handler (s : Machine) : Machine :=
  if s.g_SysTickCallBackPtr ≠ NULL_PTR then
    { s with trace := s.trace ++ [Event.call s.g_SysTickCallBackPtr] }
  else s

/-- Function `void SysTick_SetCallBack(volatile void (*Ptr2Func)(void))` -/
def SysTick_SetCallBack (s : Machine) (Ptr2Func : Nat) : Machine :=
  { s with g_SysTickCallBackPtr := Ptr2Func }

/-- Function `void SysTick_Stop(void)`: `SYSTICK_CTRL_REG &= ~SYSTICK_CTRL_ENABLE_BIT;`. The
complement is taken in `int` and converted to `uint32` for the conjunction. -/
def SysTick_Stop (s : Machine) : Machine :=
  store (load s Reg.CTRL).2 Reg.CTRL
    ((load s Reg.CTRL).1 &&& toUint32 (~~~ (SYSTICK_CTRL_ENABLE_BIT : Int)))

/-- Function `void SysTick_Start(void)`: `SYSTICK_CTRL_REG |= SYSTICK_CTRL_ENABLE_BIT;` -/
def SysTick_Start (s : Machine) : Machine :=
  store (load s Reg.CTRL).2 Reg.CTRL ((load s Reg.CTRL).1 ||| SYSTICK_CTRL_ENABLE_BIT)

/-- Function `void SysTick_DeInit(void)` -/
def SysTick_DeInit (s : Machine) : Machine :=
  let s := store s Reg.CTRL 0
  let s := store s Reg.RELOAD 0
  store s Reg.CURRENT 0

/-! Section: Sequences of calls -/

/-- A call of one of the driver's functions, with its arguments; for
`SysTick_StartBusyWait` also the values the hardware returns to the poll loads. -/
inductive Call where
  | Init (a_TimeInMilliSeconds : Nat)
  | StartBusyWait (reads : List Nat) (a_TimeInMilliSeconds : Nat)
  | Handler
  | SetCallBack (Ptr2Func : Nat)
  | Stop
  | Start
  | DeInit
deriving DecidableEq

/-- Whether the call is a call of `SysTick_SetCallBack`. -/
def Call.isSetCallBack : Call → Bool
  | Call.SetCallBack _ => true
  | _ => false

/-- One call: the state it reaches and whether it has returned. Every function but
`SysTick_StartBusyWait` returns. -/
def step (s : Machine) : Call → Run
  | Call.Init a => { state := SysTick_Init s a, returned := true }
  | Call.StartBusyWait reads a => SysTick_StartBusyWait reads s a
  | Call.Handler => { state := SysTick_Handler s, returned := true }
  | Call.SetCallBack f => { state := SysTick_SetCallBack s f, returned := true }
  | Call.Stop => { state := SysTick_Stop s, returned := true }
  | Call.Start => { state := SysTick_Start s, returned := true }
  | Call.DeInit => { state := SysTick_DeInit s, returned := true }

/-- The machine after a sequence of calls, first call first, each call made in the
state the previous one reached. -/
def run (s : Machine) : List Call → Machine
  | [] => s
  | c :: cs => run (step s c).state cs

/-- What happens to the machine: a call of one of the driver's functions, or, between
two calls, the hardware counting to zero. -/
inductive Action where
  | call (c : Call)
  | hardwareCount
deriving DecidableEq

/-- The machine after one action. -/
def act (s : Machine) : Action → Machine
  | Action.call c => (step s c).state
  | Action.hardwareCount => hardwareCount s

/-- The machine after a sequence of actions, first action first. -/
def history (s : Machine) : List Action → Machine
  | [] => s
  | a :: as => history (act s a) as

/-! Section: Reference definitions for the properties -/

/-- The reload computation as the specification words it for duration 0 ("underflows the
unsigned computation"): `16000 * duration_ms - 1` in 32-bit unsigned arithmetic. -/
def unsignedTicks (duration_ms : Nat) : Nat := toUint32 (16000 * (duration_ms : Int) - 1)

/-- The guard over the mathematical integers, with no machine reduction:
`16000 * d - 1 > 0x00FFFFFF` or `16000 * d - 1 < 1`. -/
def outOfRangeMath (d : Nat) : Bool :=
  decide (16000 * (d : Int) - 1 > 16777215) || decide (16000 * (d : Int) - 1 < 1)

/-- Replay of a history from a control value: whether every store to the reload or the
current register happens while bit 0 (enable) of the control value last stored is
clear. -/
def quietStores : Nat → List Event → Bool
  | _, [] => true
  | _, Event.store Reg.CTRL v :: es => quietStores v es
  | c, Event.store Reg.RELOAD _ :: es => !c.testBit 0 && quietStores c es
  | c, Event.store Reg.CURRENT _ :: es => !c.testBit 0 && quietStores c es
  | c, Event.poll _ :: es => quietStores c es
  | c, Event.call _ :: es => quietStores c es

/-- Invariant of the registers under the driver's functions and the hardware: the
control register is a configuration `c` with the count flag `f` clear or set, and the
machine is idle (`c` is 0 or 1 and reload is 0) or configured (`c` is 4, 5, 6 or 7 and
reload is `16000 * d - 1` for an accepted duration `d`). -/
def RegsInv (r : Regs) : Prop :=
  ∃ c f, r.SYSTICK_CTRL_REG = c + f ∧ (f = 0 ∨ f = 65536) ∧
    (((c = 0 ∨ c = 1) ∧ r.SYSTICK_RELOAD_REG = 0) ∨
      ((c = 4 ∨ c = 5 ∨ c = 6 ∨ c = 7) ∧
        ∃ d, 1 ≤ d ∧ d ≤ 1048 ∧ r.SYSTICK_RELOAD_REG = 16000 * d - 1))

/-! Section: Auxiliary facts -/

/-- Two register files with the same three values are equal. -/
theorem Regs.eq_of_fields (r t : Regs) (h1 : r.SYSTICK_CTRL_REG = t.SYSTICK_CTRL_REG)
    (h2 : r.SYSTICK_RELOAD_REG = t.SYSTICK_RELOAD_REG)
    (h3 : r.SYSTICK_CURRENT_REG = t.SYSTICK_CURRENT_REG) : r = t := by
  cases r
  cases t
  simp only at h1 h2 h3
  rw [h1, h2, h3]

/-- The mask of `clearCountFlag`: `~COUNT_FLAG` as a `uint32`. -/
theorem countMask_eq : toUint32 (~~~ (COUNT_FLAG : Int)) = 4294901759 := by
  decide

theorem clearCountFlag_eq (v : Nat) : clearCountFlag v = v &&& 4294901759 := by
  unfold clearCountFlag
  rw [countMask_eq]

theorem COUNT_FLAG_eq : COUNT_FLAG = 2 ^ 16 := by
  decide

/-- Bits of the mask of `clearCountFlag`: bits 0 to 31 but bit 16. -/
theorem countMask_testBit (i : Nat) :
    Nat.testBit 4294901759 i = (decide (i < 32) && decide (i ≠ 16)) := by
  have e : (4294901759 : Nat) = 2 ^ 32 - (2 ^ 16 + 1) := by norm_num
  rw [e, Nat.testBit_two_pow_sub_succ (by norm_num) i, Nat.testBit_two_pow]
  by_cases hi : i = 16
  · subst hi; simp
  · have hi2 : ¬ (16 = i) := fun h => hi h.symm
    simp [hi, hi2]

theorem clearCountFlag_testBit (v i : Nat) :
    (clearCountFlag v).testBit i = (v.testBit i && (decide (i < 32) && decide (i ≠ 16))) := by
  rw [clearCountFlag_eq, Nat.testBit_and, countMask_testBit]

/-- The count flag alone, cleared, is 0. -/
theorem clearCountFlag_flag (x : Nat) : clearCountFlag (x &&& COUNT_FLAG) = 0 := by
  apply Nat.eq_of_testBit_eq
  intro i
  rw [clearCountFlag_testBit, Nat.testBit_and, COUNT_FLAG_eq, Nat.testBit_two_pow,
    Nat.zero_testBit]
  by_cases hi : i = 16
  · subst hi; simp
  · have hi2 : ¬ (16 = i) := fun h => hi h.symm
    simp [hi2]

/-- A value with the count flag cleared has no count flag. -/
theorem clearCountFlag_and_flag (x : Nat) : clearCountFlag x &&& COUNT_FLAG = 0 := by
  apply Nat.eq_of_testBit_eq
  intro i
  rw [Nat.testBit_and, clearCountFlag_testBit, COUNT_FLAG_eq, Nat.testBit_two_pow,
    Nat.zero_testBit]
  by_cases hi : i = 16
  · subst hi; simp
  · have hi2 : ¬ (16 = i) := fun h => hi h.symm
    simp [hi2]

theorem clearCountFlag_lt (x : Nat) : clearCountFlag x < 4294967296 := by
  rw [clearCountFlag_eq]
  exact Nat.lt_of_le_of_lt Nat.and_le_right (by norm_num)

theorem store_CTRL (s : Machine) (v : Nat) :
    store s Reg.CTRL v =
      { regs := { s.regs with
          SYSTICK_CTRL_REG :=
            clearCountFlag (v % 4294967296) ||| (s.regs.SYSTICK_CTRL_REG &&& COUNT_FLAG) }
        g_SysTickCallBackPtr := s.g_SysTickCallBackPtr
        trace := s.trace ++ [Event.store Reg.CTRL (v % 4294967296)] } := rfl

theorem store_RELOAD (s : Machine) (v : Nat) :
    store s Reg.RELOAD v =
      { regs := { s.regs with SYSTICK_RELOAD_REG := v % 4294967296 }
        g_SysTickCallBackPtr := s.g_SysTickCallBackPtr
        trace := s.trace ++ [Event.store Reg.RELOAD (v % 4294967296)] } := rfl

theorem store_CURRENT (s : Machine) (v : Nat) :
    store s Reg.CURRENT v =
      { regs := { s.regs with
          SYSTICK_CTRL_REG := clearCountFlag s.regs.SYSTICK_CTRL_REG
          SYSTICK_CURRENT_REG := v % 4294967296 }
        g_SysTickCallBackPtr := s.g_SysTickCallBackPtr
        trace := s.trace ++ [Event.store Reg.CURRENT (v % 4294967296)] } := rfl

theorem load_CTRL (s : Machine) :
    load s Reg.CTRL =
      (s.regs.SYSTICK_CTRL_REG,
        { s with regs := { s.regs with
            SYSTICK_CTRL_REG := clearCountFlag s.regs.SYSTICK_CTRL_REG } }) := rfl

/-- The four stores of the register programming, from any state: the control register
is stored 0, the store to the current register clears the count flag, so the load of
`|=` returns 0 and the last store is of the bits `b` alone. -/
theorem program_eq (s : Machine) (n b : Nat) (hn : n < 4294967296) (hb : b < 65536) :
    store (load (store (store (store s Reg.CTRL 0) Reg.RELOAD n) Reg.CURRENT 0) Reg.CTRL).2
        Reg.CTRL
        ((load (store (store (store s Reg.CTRL 0) Reg.RELOAD n) Reg.CURRENT 0) Reg.CTRL).1
          ||| b) =
      { regs := { SYSTICK_CTRL_REG := b, SYSTICK_RELOAD_REG := n, SYSTICK_CURRENT_REG := 0 }
        g_SysTickCallBackPtr := s.g_SysTickCallBackPtr
        trace := s.trace ++ [Event.store Reg.CTRL 0, Event.store Reg.RELOAD n,
          Event.store Reg.CURRENT 0, Event.store Reg.CTRL b] } := by
  have hb2 : b % 4294967296 = b := Nat.mod_eq_of_lt (by omega)
  have hcb : clearCountFlag b = b := by
    apply Nat.eq_of_testBit_eq
    intro i
    rw [clearCountFlag_testBit]
    by_cases hi : i < 16
    · have h1 : i < 32 := by omega
      have h2 : i ≠ 16 := by omega
      simp [h1, h2]
    · have : b.testBit i = false := by
        apply Nat.testBit_lt_two_pow
        calc b < 2 ^ 16 := by simpa using hb
          _ ≤ 2 ^ i := Nat.pow_le_pow_right (by norm_num) (by omega)
      simp [this]
  have hz : clearCountFlag 0 = 0 := by decide
  simp only [store_CTRL, store_RELOAD, store_CURRENT, load_CTRL, Nat.zero_mod,
    Nat.mod_eq_of_lt hn, hz, Nat.zero_or, clearCountFlag_flag, Nat.zero_and, Nat.or_zero,
    hb2, hcb, List.append_assoc, List.cons_append, List.nil_append]

theorem ticksExpr_eq (a : Nat) (h : a < 65536) : ticksExpr a = 16000 * (a : Int) - 1 := by
  unfold ticksExpr wrapInt
  omega

theorem toUint16_of_le {d : Nat} (h : d ≤ 65535) : toUint16 d = d := by
  unfold toUint16
  omega

theorem outOfRange_eq_false {d : Nat} (h1 : 1 ≤ d) (h2 : d ≤ 1048) :
    outOfRange d = false := by
  have e := ticksExpr_eq d (by omega)
  unfold outOfRange
  rw [e]
  simp only [Bool.or_eq_false_iff, decide_eq_false_iff_not]
  omega

theorem outOfRange_eq_true {d : Nat} (h : d = 0 ∨ (1048 < d ∧ d ≤ 65535)) :
    outOfRange d = true := by
  have e := ticksExpr_eq d (by omega)
  unfold outOfRange
  rw [e]
  simp only [Bool.or_eq_true, decide_eq_true_eq]
  omega

theorem toUint32_ticksExpr {d : Nat} (h1 : 1 ≤ d) (h2 : d ≤ 1048) :
    toUint32 (ticksExpr d) = 16000 * d - 1 := by
  have e := ticksExpr_eq d (by omega)
  unfold toUint32
  rw [e]
  omega

theorem store_ptr (s : Machine) (r : Reg) (v : Nat) :
    (store s r v).g_SysTickCallBackPtr = s.g_SysTickCallBackPtr := rfl

theorem load_ptr (s : Machine) (r : Reg) :
    (load s r).2.g_SysTickCallBackPtr = s.g_SysTickCallBackPtr := by
  cases r <;> rfl

/-- The body of `SysTick_Init`, with the local bindings written out. -/
theorem SysTick_Init_def (s : Machine) (a : Nat) :
    SysTick_Init s a =
      if outOfRange (toUint16 a) then s
      else
        store (load (store (store (store s Reg.CTRL 0) Reg.RELOAD
            (toUint32 (ticksExpr (toUint16 a)))) Reg.CURRENT 0) Reg.CTRL).2 Reg.CTRL
          ((load (store (store (store s Reg.CTRL 0) Reg.RELOAD
              (toUint32 (ticksExpr (toUint16 a)))) Reg.CURRENT 0) Reg.CTRL).1 |||
            (SYSTICK_CTRL_ENABLE_BIT ||| SYSTICK_CTRL_INTEN_BIT |||
              SYSTICK_CTRL_CLK_SRC_BIT)) := rfl

/-- The body of `SysTick_StartBusyWait`, with the local bindings written out. -/
theorem SysTick_StartBusyWait_def (reads : List Nat) (s : Machine) (a : Nat) :
    SysTick_StartBusyWait reads s a =
      if outOfRange (toUint16 a) then { state := s, returned := true }
      else
        pollLoop
          (store (load (store (store (store s Reg.CTRL 0) Reg.RELOAD
              (toUint32 (ticksExpr (toUint16 a)))) Reg.CURRENT 0) Reg.CTRL).2 Reg.CTRL
            ((load (store (store (store s Reg.CTRL 0) Reg.RELOAD
                (toUint32 (ticksExpr (toUint16 a)))) Reg.CURRENT 0) Reg.CTRL).1 |||
              (SYSTICK_CTRL_ENABLE_BIT ||| SYSTICK_CTRL_CLK_SRC_BIT))) reads := rfl

/-- The state `SysTick_Init` produces for a duration in range. -/
theorem SysTick_Init_valid (s : Machine) (d : Nat) (h1 : 1 ≤ d) (h2 : d ≤ 1048) :
    SysTick_Init s d =
      { regs := { SYSTICK_CTRL_REG := 7, SYSTICK_RELOAD_REG := 16000 * d - 1,
                  SYSTICK_CURRENT_REG := 0 }
        g_SysTickCallBackPtr := s.g_SysTickCallBackPtr
        trace := s.trace ++ [Event.store Reg.CTRL 0, Event.store Reg.RELOAD (16000 * d - 1),
          Event.store Reg.CURRENT 0, Event.store Reg.CTRL 7] } := by
  have ho : ¬ (outOfRange d = true) := by
    rw [outOfRange_eq_false h1 h2]
    exact Bool.false_ne_true
  have hbits : SYSTICK_CTRL_ENABLE_BIT ||| SYSTICK_CTRL_INTEN_BIT |||
      SYSTICK_CTRL_CLK_SRC_BIT = 7 := by decide
  rw [SysTick_Init_def, toUint16_of_le (show d ≤ 65535 by omega), if_neg ho,
    toUint32_ticksExpr h1 h2, hbits]
  exact program_eq s (16000 * d - 1) 7 (by omega) (by norm_num)

/-- The test of the poll loop reads bit 16 of the loaded value. -/
theorem countFlag_iff (v : Nat) : v &&& (1 <<< 16) ≠ 0 ↔ v.testBit 16 = true := by
  rw [Nat.one_shiftLeft]
  constructor
  · intro h
    by_contra hb
    apply h
    apply Nat.eq_of_testBit_eq
    intro i
    rw [Nat.testBit_and, Nat.testBit_two_pow, Nat.zero_testBit]
    by_cases hi : 16 = i
    · subst hi
      simp [hb]
    · simp [hi]
  · intro hb h0
    have e : (v &&& 2 ^ 16).testBit 16 = true := by
      rw [Nat.testBit_and, hb, Nat.testBit_two_pow_self]
      rfl
    rw [h0, Nat.zero_testBit] at e
    exact Bool.noConfusion e

theorem pollLoop_regs (reads : List Nat) :
    ∀ s : Machine, (pollLoop s reads).state.regs = s.regs := by
  induction reads with
  | nil => intro s; rfl
  | cons v rest ih =>
    intro s
    unfold pollLoop
    by_cases hv : v &&& (1 <<< 16) ≠ 0
    · rw [if_pos hv]
    · rw [if_neg hv, ih]

theorem pollLoop_ptr (reads : List Nat) :
    ∀ s : Machine, (pollLoop s reads).state.g_SysTickCallBackPtr = s.g_SysTickCallBackPtr := by
  induction reads with
  | nil => intro s; rfl
  | cons v rest ih =>
    intro s
    unfold pollLoop
    by_cases hv : v &&& (1 <<< 16) ≠ 0
    · rw [if_pos hv]
    · rw [if_neg hv, ih]

/-- While every load returns the flag clear, the loop goes on: all the values are
consumed and the call has not returned. -/
theorem pollLoop_clear (reads : List Nat) :
    ∀ s : Machine, (∀ v ∈ reads, v.testBit 16 = false) →
      pollLoop s reads =
        { state := { s with trace := s.trace ++ reads.map Event.poll }, returned := false } := by
  induction reads with
  | nil => intro s _; simp [pollLoop]
  | cons v rest ih =>
    intro s h
    have hv : ¬ (v &&& (1 <<< 16) ≠ 0) := by
      rw [countFlag_iff, h v (List.mem_cons_self v rest)]
      exact Bool.noConfusion
    have hr : ∀ u ∈ rest, u.testBit 16 = false := fun u hu => h u (List.mem_cons_of_mem v hu)
    unfold pollLoop
    rw [if_neg hv, ih _ hr]
    simp

/-- The loop is left at the first load that returns the flag set, and the loads after it
are not performed. -/
theorem pollLoop_first (pre : List Nat) (v : Nat) (post : List Nat) :
    ∀ s : Machine, (∀ u ∈ pre, u.testBit 16 = false) → v.testBit 16 = true →
      pollLoop s (pre ++ v :: post) =
        { state := { s with trace := s.trace ++ (pre ++ [v]).map Event.poll },
          returned := true } := by
  induction pre with
  | nil =>
    intro s _ hv
    have hv2 : v &&& (1 <<< 16) ≠ 0 := (countFlag_iff v).mpr hv
    simp only [List.nil_append]
    unfold pollLoop
    rw [if_pos hv2]
    simp
  | cons u rest ih =>
    intro s h hv
    have hu : ¬ (u &&& (1 <<< 16) ≠ 0) := by
      rw [countFlag_iff, h u (List.mem_cons_self u rest)]
      exact Bool.noConfusion
    have hr : ∀ w ∈ rest, w.testBit 16 = false := fun w hw => h w (List.mem_cons_of_mem u hw)
    simp only [List.cons_append]
    unfold pollLoop
    rw [if_neg hu, ih _ hr hv]
    simp

/-- For a duration in range `SysTick_StartBusyWait` is the poll loop run from the
programmed state. -/
theorem SysTick_StartBusyWait_valid (reads : List Nat) (s : Machine) (d : Nat)
    (h1 : 1 ≤ d) (h2 : d ≤ 1048) :
    SysTick_StartBusyWait reads s d =
      pollLoop
        { regs := { SYSTICK_CTRL_REG := 5, SYSTICK_RELOAD_REG := 16000 * d - 1,
                    SYSTICK_CURRENT_REG := 0 }
          g_SysTickCallBackPtr := s.g_SysTickCallBackPtr
          trace := s.trace ++ [Event.store Reg.CTRL 0,
            Event.store Reg.RELOAD (16000 * d - 1), Event.store Reg.CURRENT 0,
            Event.store Reg.CTRL 5] } reads := by
  have ho : ¬ (outOfRange d = true) := by
    rw [outOfRange_eq_false h1 h2]
    exact Bool.false_ne_true
  have hbits : SYSTICK_CTRL_ENABLE_BIT ||| SYSTICK_CTRL_CLK_SRC_BIT = 5 := by decide
  rw [SysTick_StartBusyWait_def, toUint16_of_le (show d ≤ 65535 by omega), if_neg ho,
    toUint32_ticksExpr h1 h2, hbits, program_eq s (16000 * d - 1) 5 (by omega) (by norm_num)]

/-- The mask of `SysTick_Stop`: `~SYSTICK_CTRL_ENABLE_BIT` as a `uint32`. -/
theorem stopMask_eq : toUint32 (~~~ (SYSTICK_CTRL_ENABLE_BIT : Int)) = 4294967294 := by
  decide

/-- Bits of the mask of `SysTick_Stop`: bits 1 to 31 are set, bit 0 is clear. -/
theorem stopMask_testBit (i : Nat) :
    Nat.testBit 4294967294 i = (decide (i < 32) && decide (i ≠ 0)) := by
  have e : (4294967294 : Nat) = 2 ^ 32 - (1 + 1) := by norm_num
  have h1 : Nat.testBit 1 i = decide (0 = i) := by
    have := @Nat.testBit_two_pow 0 i
    simpa using this
  rw [e, Nat.testBit_two_pow_sub_succ (by norm_num) i, h1]
  by_cases hi : i = 0
  · subst hi; simp
  · have hi2 : ¬ (0 = i) := fun h => hi h.symm
    simp [hi, hi2]

theorem testBit_one (i : Nat) : Nat.testBit 1 i = decide (i = 0) := by
  have := @Nat.testBit_two_pow 0 i
  by_cases hi : i = 0
  · subst hi; rfl
  · have hi2 : ¬ (0 = i) := fun h => hi h.symm
    simpa [hi, hi2] using this

/-- The registers after `SysTick_Stop`: the enable bit is cleared by the store, the
count flag by the load. -/
theorem SysTick_Stop_regs (s : Machine) :
    (SysTick_Stop s).regs =
      { s.regs with
        SYSTICK_CTRL_REG := clearCountFlag (s.regs.SYSTICK_CTRL_REG &&& 4294967294) } := by
  have hlt : s.regs.SYSTICK_CTRL_REG &&& 4294967294 < 4294967296 :=
    Nat.lt_of_le_of_lt Nat.and_le_right (by norm_num)
  simp only [SysTick_Stop, store_CTRL, load_CTRL, stopMask_eq, Nat.mod_eq_of_lt hlt,
    clearCountFlag_and_flag, Nat.or_zero]

/-- The registers after `SysTick_Start`, for a 32-bit control value: the enable bit is
set by the store, the count flag is cleared by the load. -/
theorem SysTick_Start_regs (s : Machine) (h : s.regs.SYSTICK_CTRL_REG < 4294967296) :
    (SysTick_Start s).regs =
      { s.regs with
        SYSTICK_CTRL_REG := clearCountFlag (s.regs.SYSTICK_CTRL_REG ||| 1) } := by
  have hlt : s.regs.SYSTICK_CTRL_REG ||| 1 < 2 ^ 32 :=
    Nat.or_lt_two_pow (by simpa using h) (by norm_num)
  have hlt2 : s.regs.SYSTICK_CTRL_REG ||| 1 < 4294967296 := by simpa using hlt
  simp only [SysTick_Start, store_CTRL, load_CTRL, SYSTICK_CTRL_ENABLE_BIT,
    Nat.shiftLeft_zero, Nat.mod_eq_of_lt hlt2, clearCountFlag_and_flag, Nat.or_zero]

/-- A 32-bit value has no bit set from position 32 on. -/
theorem testBit_of_uint32 {x i : Nat} (h : x < 4294967296) (hi : 32 ≤ i) :
    x.testBit i = false := by
  apply Nat.testBit_lt_two_pow
  calc x < 2 ^ 32 := by simpa using h
    _ ≤ 2 ^ i := Nat.pow_le_pow_right (by norm_num) hi

/-- Clearing bit 0 of a 32-bit value changes no other bit. -/
theorem and_stopMask_testBit {x : Nat} (h : x < 4294967296) (i : Nat) :
    (x &&& 4294967294).testBit i = (x.testBit i && decide (i ≠ 0)) := by
  rw [Nat.testBit_and, stopMask_testBit]
  by_cases hi : i < 32
  · simp [hi]
  · rw [testBit_of_uint32 h (by omega)]
    simp

/-- The state `SysTick_DeInit` produces. -/
theorem SysTick_DeInit_eq (s : Machine) :
    SysTick_DeInit s =
      { regs := { SYSTICK_CTRL_REG := 0, SYSTICK_RELOAD_REG := 0, SYSTICK_CURRENT_REG := 0 }
        g_SysTickCallBackPtr := s.g_SysTickCallBackPtr
        trace := s.trace ++ [Event.store Reg.CTRL 0, Event.store Reg.RELOAD 0,
          Event.store Reg.CURRENT 0] } := by
  have hz : clearCountFlag 0 = 0 := by decide
  simp only [SysTick_DeInit, store_CTRL, store_RELOAD, store_CURRENT, Nat.zero_mod, hz,
    Nat.zero_or, clearCountFlag_flag, List.append_assoc, List.cons_append, List.nil_append]

/-! Section: Properties -/

/-- C1: for every duration `1 ≤ d ≤ 1048` and every prior state, `SysTick_Init` and
`SysTick_StartBusyWait` (whatever the poll loads return) leave the reload register equal
to `16000 * d - 1` and the current register equal to 0. -/
theorem C1_reload_and_current (s : Machine) (reads : List Nat) (d : Nat)
    (h1 : 1 ≤ d) (h2 : d ≤ 1048) :
    (SysTick_Init s d).regs.SYSTICK_RELOAD_REG = 16000 * d - 1 ∧
    (SysTick_Init s d).regs.SYSTICK_CURRENT_REG = 0 ∧
    (SysTick_StartBusyWait reads s d).state.regs.SYSTICK_RELOAD_REG = 16000 * d - 1 ∧
    (SysTick_StartBusyWait reads s d).state.regs.SYSTICK_CURRENT_REG = 0 := by
  rw [SysTick_Init_valid s d h1 h2, SysTick_StartBusyWait_valid reads s d h1 h2,
    pollLoop_regs]
  exact ⟨rfl, rfl, rfl, rfl⟩

/-- Witness of C1: duration 10 programs reload 159999 and duration 1 programs reload
15999, from registers holding other values. -/
theorem C1_reload_and_current_witness :
    (1 ≤ 10 ∧ 10 ≤ 1048) ∧
    ((SysTick_Init (initial ⟨3, 77, 9⟩) 10).regs.SYSTICK_RELOAD_REG = 16000 * 10 - 1 ∧
      (SysTick_Init (initial ⟨3, 77, 9⟩) 10).regs.SYSTICK_CURRENT_REG = 0 ∧
      (SysTick_StartBusyWait [5, 65541] (initial ⟨3, 77, 9⟩) 10).state.regs.SYSTICK_RELOAD_REG
        = 16000 * 10 - 1 ∧
      (SysTick_StartBusyWait [5, 65541] (initial ⟨3, 77, 9⟩) 10).state.regs.SYSTICK_CURRENT_REG
        = 0) ∧
    (SysTick_Init (initial ⟨3, 77, 9⟩) 10).regs.SYSTICK_RELOAD_REG = 159999 ∧
    (SysTick_StartBusyWait [5, 65541] (initial ⟨3, 77, 9⟩) 1).state.regs.SYSTICK_RELOAD_REG
      = 15999 :=
  ⟨by decide,
    C1_reload_and_current (initial ⟨3, 77, 9⟩) [5, 65541] 10 (by decide) (by decide),
    by decide, by decide⟩

/-- C2: for duration 0 and for every 16-bit duration above 1048, `SysTick_Init` and
`SysTick_StartBusyWait` return with the machine unchanged: the three registers keep
their values, no store is performed and no poll load is made. -/
theorem C2_rejected_unchanged (s : Machine) (reads : List Nat) (d : Nat)
    (h : d = 0 ∨ (1048 < d ∧ d ≤ 65535)) :
    SysTick_Init s d = s ∧
    SysTick_StartBusyWait reads s d = { state := s, returned := true } := by
  have hd : toUint16 d = d := toUint16_of_le (by omega)
  have ho : outOfRange d = true := outOfRange_eq_true h
  constructor
  · rw [SysTick_Init_def, hd, if_pos ho]
  · rw [SysTick_StartBusyWait_def, hd, if_pos ho]

/-- Witness of C2: duration 1049, on a running configuration. -/
theorem C2_rejected_unchanged_witness :
    ((1049 : Nat) = 0 ∨ (1048 < 1049 ∧ 1049 ≤ 65535)) ∧
    SysTick_Init (initial ⟨7, 159999, 12⟩) 1049 = initial ⟨7, 159999, 12⟩ ∧
    SysTick_StartBusyWait [65536] (initial ⟨7, 159999, 12⟩) 1049 =
      { state := initial ⟨7, 159999, 12⟩, returned := true } :=
  ⟨by decide,
    C2_rejected_unchanged (initial ⟨7, 159999, 12⟩) [65536] 1049 (Or.inr (by decide))⟩

/-- C3: for every duration `1 ≤ d ≤ 1048` and every prior state, after `SysTick_Init` the
control register has enable (bit 0), interrupt-enable (bit 1) and clock-source (bit 2)
set; in `SysTick_StartBusyWait`, from the end of the register programming on (whatever
the poll loads return), it has enable set, interrupt-enable clear and clock-source set. -/
theorem C3_control_bits (s : Machine) (reads : List Nat) (d : Nat)
    (h1 : 1 ≤ d) (h2 : d ≤ 1048) :
    ((SysTick_Init s d).regs.SYSTICK_CTRL_REG.testBit 0 = true ∧
      (SysTick_Init s d).regs.SYSTICK_CTRL_REG.testBit 1 = true ∧
      (SysTick_Init s d).regs.SYSTICK_CTRL_REG.testBit 2 = true) ∧
    ((SysTick_StartBusyWait reads s d).state.regs.SYSTICK_CTRL_REG.testBit 0 = true ∧
      (SysTick_StartBusyWait reads s d).state.regs.SYSTICK_CTRL_REG.testBit 1 = false ∧
      (SysTick_StartBusyWait reads s d).state.regs.SYSTICK_CTRL_REG.testBit 2 = true) := by
  rw [SysTick_Init_valid s d h1 h2, SysTick_StartBusyWait_valid reads s d h1 h2,
    pollLoop_regs]
  refine ⟨⟨?_, ?_, ?_⟩, ?_, ?_, ?_⟩
  · show Nat.testBit 7 0 = true
    decide
  · show Nat.testBit 7 1 = true
    decide
  · show Nat.testBit 7 2 = true
    decide
  · show Nat.testBit 5 0 = true
    decide
  · show Nat.testBit 5 1 = false
    decide
  · show Nat.testBit 5 2 = true
    decide

/-- Witness of C3: duration 1048, the largest accepted, with no poll load made yet. -/
theorem C3_control_bits_witness :
    (1 ≤ 1048 ∧ 1048 ≤ 1048) ∧
    ((SysTick_Init (initial ⟨0, 0, 0⟩) 1048).regs.SYSTICK_CTRL_REG.testBit 0 = true ∧
      (SysTick_Init (initial ⟨0, 0, 0⟩) 1048).regs.SYSTICK_CTRL_REG.testBit 1 = true ∧
      (SysTick_Init (initial ⟨0, 0, 0⟩) 1048).regs.SYSTICK_CTRL_REG.testBit 2 = true) ∧
    ((SysTick_StartBusyWait [] (initial ⟨0, 0, 0⟩) 1048).state.regs.SYSTICK_CTRL_REG.testBit 0
        = true ∧
      (SysTick_StartBusyWait [] (initial ⟨0, 0, 0⟩) 1048).state.regs.SYSTICK_CTRL_REG.testBit 1
        = false ∧
      (SysTick_StartBusyWait [] (initial ⟨0, 0, 0⟩) 1048).state.regs.SYSTICK_CTRL_REG.testBit 2
        = true) :=
  ⟨by decide, C3_control_bits (initial ⟨0, 0, 0⟩) [] 1048 (by decide) (by decide)⟩

/-- C4: for callbacks `f`, `f2` (non-null pointers) and any pointer `f1`:
`SysTick_SetCallBack f` followed by `SysTick_Handler` performs exactly one call, to `f`;
`SysTick_SetCallBack NULL_PTR` followed by `SysTick_Handler` performs no call;
`SysTick_SetCallBack f1`, `SysTick_SetCallBack f2`, `SysTick_Handler` performs exactly
one call, to `f2`. -/
theorem C4_callback_dispatch (s : Machine) (f f1 f2 : Nat)
    (hf : f ≠ NULL_PTR) (hf2 : f2 ≠ NULL_PTR) :
    (SysTick_Handler (SysTick_SetCallBack s f)).trace = s.trace ++ [Event.call f] ∧
    (SysTick_Handler (SysTick_SetCallBack s NULL_PTR)).trace = s.trace ∧
    (SysTick_Handler (SysTick_SetCallBack (SysTick_SetCallBack s f1) f2)).trace =
      s.trace ++ [Event.call f2] := by
  refine ⟨?_, ?_, ?_⟩
  · simp [SysTick_Handler, SysTick_SetCallBack, hf]
  · simp [SysTick_Handler, SysTick_SetCallBack]
  · simp [SysTick_Handler, SysTick_SetCallBack, hf2]

/-- Witness of C4: callbacks at addresses 0x400 and 0x800. -/
theorem C4_callback_dispatch_witness :
    ((1024 : Nat) ≠ NULL_PTR ∧ (2048 : Nat) ≠ NULL_PTR) ∧
    ((SysTick_Handler (SysTick_SetCallBack (initial ⟨7, 159999, 0⟩) 1024)).trace =
        (initial ⟨7, 159999, 0⟩).trace ++ [Event.call 1024] ∧
      (SysTick_Handler (SysTick_SetCallBack (initial ⟨7, 159999, 0⟩) NULL_PTR)).trace =
        (initial ⟨7, 159999, 0⟩).trace ∧
      (SysTick_Handler (SysTick_SetCallBack
          (SysTick_SetCallBack (initial ⟨7, 159999, 0⟩) 1024) 2048)).trace =
        (initial ⟨7, 159999, 0⟩).trace ++ [Event.call 2048]) :=
  ⟨⟨by decide, by decide⟩,
    C4_callback_dispatch (initial ⟨7, 159999, 0⟩) 1024 1024 2048 (by decide) (by decide)⟩

/-- Bits of the control register after `SysTick_Stop`, for a 32-bit value `x` before. -/
theorem stopCell_testBit {x : Nat} (h : x < 4294967296) (i : Nat) :
    (clearCountFlag (x &&& 4294967294)).testBit i =
      (x.testBit i && decide (i ≠ 0) && decide (i ≠ 16)) := by
  rw [clearCountFlag_testBit, and_stopMask_testBit h]
  by_cases hi : i < 32
  · simp [hi]
  · rw [testBit_of_uint32 h (by omega)]
    simp

/-- Bits of the control register after `SysTick_Start`, for a 32-bit value `x` before. -/
theorem startCell_testBit {x : Nat} (h : x < 4294967296) (i : Nat) :
    (clearCountFlag (x ||| 1)).testBit i =
      ((x.testBit i || decide (i = 0)) && decide (i ≠ 16)) := by
  rw [clearCountFlag_testBit, Nat.testBit_or, testBit_one]
  by_cases hi : i < 32
  · simp [hi]
  · have h0 : ¬ i = 0 := by omega
    rw [testBit_of_uint32 h (by omega)]
    simp [h0]

/-- Counterexample to C5 as stated: on a running interrupt-mode configuration whose
count flag is set (control `0x10007`), `SysTick_Stop` leaves control 6: bit 16, which is
not the enable bit, has changed, because the load of the read-modify-write clears it. -/
theorem C5_counterexample :
    (initial ⟨65543, 159999, 1234⟩).regs.SYSTICK_CTRL_REG < 4294967296 ∧
    (SysTick_Stop (initial ⟨65543, 159999, 1234⟩)).regs.SYSTICK_CTRL_REG = 6 ∧
    ¬ (∀ i, i ≠ 0 →
      (SysTick_Stop (initial ⟨65543, 159999, 1234⟩)).regs.SYSTICK_CTRL_REG.testBit i =
        (initial ⟨65543, 159999, 1234⟩).regs.SYSTICK_CTRL_REG.testBit i) := by
  refine ⟨by decide, by decide, ?_⟩
  intro hall
  have h16 := hall 16 (by decide)
  have e1 : (SysTick_Stop (initial ⟨65543, 159999, 1234⟩)).regs.SYSTICK_CTRL_REG.testBit 16
      = false := by decide
  have e2 : (initial ⟨65543, 159999, 1234⟩).regs.SYSTICK_CTRL_REG.testBit 16 = true := by
    decide
  rw [e1, e2] at h16
  exact Bool.noConfusion h16

/-- C5 (amended): for every state with a 32-bit control value, after `SysTick_Stop` the
control register has bit 0 (enable) clear and every bit other than bit 0 and the count
flag (bit 16) equal to its value before the call, and the reload and current registers
are unchanged. -/
theorem C5_stop_frame (s : Machine) (h : s.regs.SYSTICK_CTRL_REG < 4294967296) :
    (SysTick_Stop s).regs.SYSTICK_CTRL_REG.testBit 0 = false ∧
    (∀ i, i ≠ 0 → i ≠ 16 →
      (SysTick_Stop s).regs.SYSTICK_CTRL_REG.testBit i = s.regs.SYSTICK_CTRL_REG.testBit i) ∧
    (SysTick_Stop s).regs.SYSTICK_RELOAD_REG = s.regs.SYSTICK_RELOAD_REG ∧
    (SysTick_Stop s).regs.SYSTICK_CURRENT_REG = s.regs.SYSTICK_CURRENT_REG := by
  rw [SysTick_Stop_regs]
  refine ⟨?_, ?_, rfl, rfl⟩
  · show (clearCountFlag (s.regs.SYSTICK_CTRL_REG &&& 4294967294)).testBit 0 = false
    rw [stopCell_testBit h]
    simp
  · intro i hi hi2
    show (clearCountFlag (s.regs.SYSTICK_CTRL_REG &&& 4294967294)).testBit i = _
    rw [stopCell_testBit h]
    simp [hi, hi2]

/-- Witness of C5: a running interrupt-mode configuration with the count flag set. -/
theorem C5_stop_frame_witness :
    (initial ⟨65543, 159999, 1234⟩).regs.SYSTICK_CTRL_REG < 4294967296 ∧
    ((SysTick_Stop (initial ⟨65543, 159999, 1234⟩)).regs.SYSTICK_CTRL_REG.testBit 0 = false ∧
      (∀ i, i ≠ 0 → i ≠ 16 →
        (SysTick_Stop (initial ⟨65543, 159999, 1234⟩)).regs.SYSTICK_CTRL_REG.testBit i =
          (initial ⟨65543, 159999, 1234⟩).regs.SYSTICK_CTRL_REG.testBit i) ∧
      (SysTick_Stop (initial ⟨65543, 159999, 1234⟩)).regs.SYSTICK_RELOAD_REG =
        (initial ⟨65543, 159999, 1234⟩).regs.SYSTICK_RELOAD_REG ∧
      (SysTick_Stop (initial ⟨65543, 159999, 1234⟩)).regs.SYSTICK_CURRENT_REG =
        (initial ⟨65543, 159999, 1234⟩).regs.SYSTICK_CURRENT_REG) :=
  ⟨by decide, C5_stop_frame (initial ⟨65543, 159999, 1234⟩) (by decide)⟩

/-- Counterexample to C6 as stated: from a running interrupt-mode configuration whose
count flag is set (control `0x10007`, enable set), `SysTick_Stop` then `SysTick_Start`
leaves control 7: the registers are not those before the two calls. -/
theorem C6_counterexample :
    (initial ⟨65543, 159999, 1234⟩).regs.SYSTICK_CTRL_REG < 4294967296 ∧
    (initial ⟨65543, 159999, 1234⟩).regs.SYSTICK_CTRL_REG.testBit 0 = true ∧
    (SysTick_Start (SysTick_Stop (initial ⟨65543, 159999, 1234⟩))).regs.SYSTICK_CTRL_REG
      = 7 ∧
    (SysTick_Start (SysTick_Stop (initial ⟨65543, 159999, 1234⟩))).regs ≠
      (initial ⟨65543, 159999, 1234⟩).regs := by
  refine ⟨by decide, by decide, by decide, by decide⟩

/-- C6 (amended): for every state `s` with a 32-bit control value, after `SysTick_Stop`
then `SysTick_Start` the control register has bit 0 (enable) set and every bit other
than bit 0 and the count flag (bit 16) as in `s`, and the reload and current registers
and the callback pointer are those of `s`; if in `s` enable was set and the count flag
clear, the registers are exactly those of `s`. -/
theorem C6_start_after_stop (s : Machine) (h : s.regs.SYSTICK_CTRL_REG < 4294967296) :
    (SysTick_Start (SysTick_Stop s)).regs.SYSTICK_CTRL_REG.testBit 0 = true ∧
    (∀ i, i ≠ 0 → i ≠ 16 →
      (SysTick_Start (SysTick_Stop s)).regs.SYSTICK_CTRL_REG.testBit i =
        s.regs.SYSTICK_CTRL_REG.testBit i) ∧
    (SysTick_Start (SysTick_Stop s)).regs.SYSTICK_RELOAD_REG = s.regs.SYSTICK_RELOAD_REG ∧
    (SysTick_Start (SysTick_Stop s)).regs.SYSTICK_CURRENT_REG = s.regs.SYSTICK_CURRENT_REG ∧
    (SysTick_Start (SysTick_Stop s)).g_SysTickCallBackPtr = s.g_SysTickCallBackPtr ∧
    (s.regs.SYSTICK_CTRL_REG.testBit 0 = true → s.regs.SYSTICK_CTRL_REG.testBit 16 = false →
      (SysTick_Start (SysTick_Stop s)).regs = s.regs) := by
  have hstop : (SysTick_Stop s).regs.SYSTICK_CTRL_REG < 4294967296 := by
    rw [SysTick_Stop_regs]
    exact clearCountFlag_lt _
  have hlt : clearCountFlag (s.regs.SYSTICK_CTRL_REG &&& 4294967294) < 4294967296 :=
    clearCountFlag_lt _
  have hbit : ∀ i, (SysTick_Start (SysTick_Stop s)).regs.SYSTICK_CTRL_REG.testBit i =
      (((s.regs.SYSTICK_CTRL_REG.testBit i && decide (i ≠ 0) && decide (i ≠ 16)) ||
        decide (i = 0)) && decide (i ≠ 16)) := by
    intro i
    rw [SysTick_Start_regs _ hstop, SysTick_Stop_regs]
    show (clearCountFlag (clearCountFlag (s.regs.SYSTICK_CTRL_REG &&& 4294967294) ||| 1)).testBit
      i = _
    rw [startCell_testBit hlt, stopCell_testBit h]
  have hrel : (SysTick_Start (SysTick_Stop s)).regs.SYSTICK_RELOAD_REG =
      s.regs.SYSTICK_RELOAD_REG := by
    rw [SysTick_Start_regs _ hstop, SysTick_Stop_regs]
  have hcur : (SysTick_Start (SysTick_Stop s)).regs.SYSTICK_CURRENT_REG =
      s.regs.SYSTICK_CURRENT_REG := by
    rw [SysTick_Start_regs _ hstop, SysTick_Stop_regs]
  have hptr : (SysTick_Start (SysTick_Stop s)).g_SysTickCallBackPtr =
      s.g_SysTickCallBackPtr := by
    rw [SysTick_Start, store_ptr, load_ptr, SysTick_Stop, store_ptr, load_ptr]
  refine ⟨?_, ?_, hrel, hcur, hptr, ?_⟩
  · rw [hbit]; simp
  · intro i hi hi2
    rw [hbit]; simp [hi, hi2]
  · intro he hc
    apply Regs.eq_of_fields
    · apply Nat.eq_of_testBit_eq
      intro i
      rw [hbit]
      by_cases hi : i = 0
      · subst hi; simp [he]
      · by_cases hi2 : i = 16
        · subst hi2; simp [hc]
        · simp [hi, hi2]
    · exact hrel
    · exact hcur

/-- Witness of C6: a running interrupt-mode configuration with the count flag clear is
restored exactly. -/
theorem C6_start_after_stop_witness :
    (initial ⟨7, 159999, 1234⟩).regs.SYSTICK_CTRL_REG < 4294967296 ∧
    (initial ⟨7, 159999, 1234⟩).regs.SYSTICK_CTRL_REG.testBit 0 = true ∧
    (initial ⟨7, 159999, 1234⟩).regs.SYSTICK_CTRL_REG.testBit 16 = false ∧
    (SysTick_Start (SysTick_Stop (initial ⟨7, 159999, 1234⟩))).regs =
      (initial ⟨7, 159999, 1234⟩).regs :=
  ⟨by decide, by decide, by decide,
    (C6_start_after_stop (initial ⟨7, 159999, 1234⟩) (by decide)).2.2.2.2.2 (by decide)
      (by decide)⟩

/-- C7: for every prior state `SysTick_DeInit` leaves control, reload and current equal
to 0, and a second `SysTick_DeInit` leaves the registers and the callback pointer as the
first one did. -/
theorem C7_deinit_zero_idempotent (s : Machine) :
    (SysTick_DeInit s).regs =
      { SYSTICK_CTRL_REG := 0, SYSTICK_RELOAD_REG := 0, SYSTICK_CURRENT_REG := 0 } ∧
    (SysTick_DeInit (SysTick_DeInit s)).regs = (SysTick_DeInit s).regs ∧
    (SysTick_DeInit (SysTick_DeInit s)).g_SysTickCallBackPtr =
      (SysTick_DeInit s).g_SysTickCallBackPtr := by
  simp [SysTick_DeInit_eq]

/-- C8: for every duration `1 ≤ d ≤ 1048`, every prior state, and every sequence of
values returned to the loads of the poll loop: as long as every load so far (`pre`)
returned bit 16 clear, `SysTick_StartBusyWait` has not returned; it returns right after
the first load `v` that returns bit 16 set, without making the later loads (`post`).
From the end of the register programming on, its only actions are these loads: no
register is stored to, and the registers keep the programmed values. -/
theorem C8_busy_wait_poll (s : Machine) (d : Nat) (pre : List Nat) (v : Nat)
    (post : List Nat) (h1 : 1 ≤ d) (h2 : d ≤ 1048)
    (hpre : ∀ u ∈ pre, u.testBit 16 = false) (hv : v.testBit 16 = true) :
    SysTick_StartBusyWait pre s d =
      { state :=
          { regs := { SYSTICK_CTRL_REG := 5, SYSTICK_RELOAD_REG := 16000 * d - 1,
                      SYSTICK_CURRENT_REG := 0 }
            g_SysTickCallBackPtr := s.g_SysTickCallBackPtr
            trace := s.trace ++ [Event.store Reg.CTRL 0,
              Event.store Reg.RELOAD (16000 * d - 1), Event.store Reg.CURRENT 0,
              Event.store Reg.CTRL 5] ++ pre.map Event.poll }
        returned := false } ∧
    SysTick_StartBusyWait (pre ++ v :: post) s d =
      { state :=
          { regs := { SYSTICK_CTRL_REG := 5, SYSTICK_RELOAD_REG := 16000 * d - 1,
                      SYSTICK_CURRENT_REG := 0 }
            g_SysTickCallBackPtr := s.g_SysTickCallBackPtr
            trace := s.trace ++ [Event.store Reg.CTRL 0,
              Event.store Reg.RELOAD (16000 * d - 1), Event.store Reg.CURRENT 0,
              Event.store Reg.CTRL 5] ++ (pre ++ [v]).map Event.poll }
        returned := true } := by
  constructor
  · rw [SysTick_StartBusyWait_valid pre s d h1 h2, pollLoop_clear pre _ hpre]
  · rw [SysTick_StartBusyWait_valid (pre ++ v :: post) s d h1 h2,
      pollLoop_first pre v post _ hpre hv]

/-- Witness of C8: duration 1 programs reload 15999; the loads return 5, 5, then 65541
(bit 16 set), and a fourth value that is never loaded. -/
theorem C8_busy_wait_poll_witness :
    ((1 ≤ 1 ∧ 1 ≤ 1048) ∧ (∀ u ∈ [5, 5], Nat.testBit u 16 = false) ∧
      Nat.testBit 65541 16 = true) ∧
    (SysTick_StartBusyWait [5, 5] (initial ⟨0, 0, 0⟩) 1 =
      { state :=
          { regs := { SYSTICK_CTRL_REG := 5, SYSTICK_RELOAD_REG := 16000 * 1 - 1,
                      SYSTICK_CURRENT_REG := 0 }
            g_SysTickCallBackPtr := (initial ⟨0, 0, 0⟩).g_SysTickCallBackPtr
            trace := (initial ⟨0, 0, 0⟩).trace ++ [Event.store Reg.CTRL 0,
              Event.store Reg.RELOAD (16000 * 1 - 1), Event.store Reg.CURRENT 0,
              Event.store Reg.CTRL 5] ++ [5, 5].map Event.poll }
        returned := false } ∧
    SysTick_StartBusyWait ([5, 5] ++ 65541 :: [5]) (initial ⟨0, 0, 0⟩) 1 =
      { state :=
          { regs := { SYSTICK_CTRL_REG := 5, SYSTICK_RELOAD_REG := 16000 * 1 - 1,
                      SYSTICK_CURRENT_REG := 0 }
            g_SysTickCallBackPtr := (initial ⟨0, 0, 0⟩).g_SysTickCallBackPtr
            trace := (initial ⟨0, 0, 0⟩).trace ++ [Event.store Reg.CTRL 0,
              Event.store Reg.RELOAD (16000 * 1 - 1), Event.store Reg.CURRENT 0,
              Event.store Reg.CTRL 5] ++ ([5, 5] ++ [65541]).map Event.poll }
        returned := true }) ∧
    (SysTick_StartBusyWait [5, 5, 65541, 5] (initial ⟨0, 0, 0⟩) 1).state.regs.SYSTICK_RELOAD_REG
      = 15999 := by
  refine ⟨⟨?_, ?_, ?_⟩, ?_, ?_⟩
  · decide
  · decide
  · decide
  · exact C8_busy_wait_poll (initial ⟨0, 0, 0⟩) 1 [5, 5] 65541 [5] (by decide) (by decide)
      (by decide) (by decide)
  · decide

/-- C9: for every duration `1 ≤ d ≤ 1048` the registers after `SysTick_Init` are the same
from any two prior states (they are control 7, reload `16000 * d - 1`, current 0), and
`SysTick_Init` applied twice with `d` leaves the registers as one application does. -/
theorem C9_init_overwrites (s t : Machine) (d : Nat) (h1 : 1 ≤ d) (h2 : d ≤ 1048) :
    (SysTick_Init s d).regs = (SysTick_Init t d).regs ∧
    (SysTick_Init s d).regs =
      { SYSTICK_CTRL_REG := 7, SYSTICK_RELOAD_REG := 16000 * d - 1,
        SYSTICK_CURRENT_REG := 0 } ∧
    (SysTick_Init (SysTick_Init s d) d).regs = (SysTick_Init s d).regs := by
  rw [SysTick_Init_valid (SysTick_Init s d) d h1 h2, SysTick_Init_valid s d h1 h2,
    SysTick_Init_valid t d h1 h2]
  exact ⟨rfl, rfl, rfl⟩

/-- Witness of C9: an interrupt-mode configuration overwrites a busy-wait one and an
idle one alike. -/
theorem C9_init_overwrites_witness :
    (1 ≤ 10 ∧ 10 ≤ 1048) ∧
    ((SysTick_Init (initial ⟨5, 15999, 40⟩) 10).regs = (SysTick_Init (initial ⟨0, 0, 0⟩) 10).regs ∧
      (SysTick_Init (initial ⟨5, 15999, 40⟩) 10).regs =
        { SYSTICK_CTRL_REG := 7, SYSTICK_RELOAD_REG := 16000 * 10 - 1,
          SYSTICK_CURRENT_REG := 0 } ∧
      (SysTick_Init (SysTick_Init (initial ⟨5, 15999, 40⟩) 10) 10).regs =
        (SysTick_Init (initial ⟨5, 15999, 40⟩) 10).regs) :=
  ⟨by decide,
    C9_init_overwrites (initial ⟨5, 15999, 40⟩) (initial ⟨0, 0, 0⟩) 10 (by decide) (by decide)⟩

/-- C10: for every state and every argument, `SysTick_Init`, `SysTick_StartBusyWait`
(whatever the poll loads return), `SysTick_Stop`, `SysTick_Start`, `SysTick_DeInit` and
`SysTick_Handler` leave `g_SysTickCallBackPtr` unchanged, and `SysTick_SetCallBack`
stores its argument there and leaves the registers and the history of stores
unchanged. -/
theorem C10_callback_slot_frame (s : Machine) (a : Nat) (reads : List Nat) (f : Nat) :
    (SysTick_Init s a).g_SysTickCallBackPtr = s.g_SysTickCallBackPtr ∧
    (SysTick_StartBusyWait reads s a).state.g_SysTickCallBackPtr = s.g_SysTickCallBackPtr ∧
    (SysTick_Stop s).g_SysTickCallBackPtr = s.g_SysTickCallBackPtr ∧
    (SysTick_Start s).g_SysTickCallBackPtr = s.g_SysTickCallBackPtr ∧
    (SysTick_DeInit s).g_SysTickCallBackPtr = s.g_SysTickCallBackPtr ∧
    (SysTick_Handler s).g_SysTickCallBackPtr = s.g_SysTickCallBackPtr ∧
    (SysTick_SetCallBack s f).g_SysTickCallBackPtr = f ∧
    (SysTick_SetCallBack s f).regs = s.regs ∧
    (SysTick_SetCallBack s f).trace = s.trace := by
  refine ⟨?_, ?_, ?_, ?_, ?_, ?_, rfl, rfl, rfl⟩
  · rw [SysTick_Init_def]
    by_cases ho : outOfRange (toUint16 a) = true
    · rw [if_pos ho]
    · rw [if_neg ho, store_ptr, load_ptr, store_ptr, store_ptr, store_ptr]
  · rw [SysTick_StartBusyWait_def]
    by_cases ho : outOfRange (toUint16 a) = true
    · rw [if_pos ho]
    · rw [if_neg ho, pollLoop_ptr, store_ptr, load_ptr, store_ptr, store_ptr, store_ptr]
  · rw [SysTick_Stop, store_ptr, load_ptr]
  · rw [SysTick_Start, store_ptr, load_ptr]
  · rw [SysTick_DeInit_eq]
  · by_cases hp : s.g_SysTickCallBackPtr ≠ NULL_PTR
    · rw [SysTick_Handler, if_pos hp]
    · rw [SysTick_Handler, if_neg hp]

/-- The history after `SysTick_Start`: one store to the control register, of the value
loaded with bit 0 set. -/
theorem SysTick_Start_trace (s : Machine) (h : s.regs.SYSTICK_CTRL_REG < 4294967296) :
    (SysTick_Start s).trace =
      s.trace ++ [Event.store Reg.CTRL (s.regs.SYSTICK_CTRL_REG ||| 1)] := by
  have hlt : s.regs.SYSTICK_CTRL_REG ||| 1 < 2 ^ 32 :=
    Nat.or_lt_two_pow (by simpa using h) (by norm_num)
  have hlt2 : s.regs.SYSTICK_CTRL_REG ||| 1 < 4294967296 := by simpa using hlt
  simp only [SysTick_Start, store_CTRL, load_CTRL, SYSTICK_CTRL_ENABLE_BIT,
    Nat.shiftLeft_zero, Nat.mod_eq_of_lt hlt2]

/-- Counterexample to C11 as stated: on a stopped configuration whose count flag is set
(control `0x10006`), `SysTick_Start` leaves control 7: bit 16, which is not the enable
bit, has changed, because the load of the read-modify-write clears it. -/
theorem C11_counterexample :
    (initial ⟨65542, 4095, 77⟩).regs.SYSTICK_CTRL_REG < 4294967296 ∧
    (SysTick_Start (initial ⟨65542, 4095, 77⟩)).regs.SYSTICK_CTRL_REG = 7 ∧
    ¬ (∀ i, i ≠ 0 →
      (SysTick_Start (initial ⟨65542, 4095, 77⟩)).regs.SYSTICK_CTRL_REG.testBit i =
        (initial ⟨65542, 4095, 77⟩).regs.SYSTICK_CTRL_REG.testBit i) := by
  refine ⟨by decide, by decide, ?_⟩
  intro hall
  have h16 := hall 16 (by decide)
  have e1 : (SysTick_Start (initial ⟨65542, 4095, 77⟩)).regs.SYSTICK_CTRL_REG.testBit 16
      = false := by decide
  have e2 : (initial ⟨65542, 4095, 77⟩).regs.SYSTICK_CTRL_REG.testBit 16 = true := by
    decide
  rw [e1, e2] at h16
  exact Bool.noConfusion h16

/-- C11 (amended): for every state with a 32-bit control value, whether or not an Init
was ever performed, `SysTick_Start` performs one store, to the control register, of the
value loaded with bit 0 set; after it bit 0 (enable) is set and every bit other than
bit 0 and the count flag (bit 16) has its value from before the call; the reload and
current registers are unchanged. Nothing in the prior state is tested. -/
theorem C11_start_frame (s : Machine) (h : s.regs.SYSTICK_CTRL_REG < 4294967296) :
    (SysTick_Start s).regs.SYSTICK_CTRL_REG.testBit 0 = true ∧
    (∀ i, i ≠ 0 → i ≠ 16 →
      (SysTick_Start s).regs.SYSTICK_CTRL_REG.testBit i = s.regs.SYSTICK_CTRL_REG.testBit i) ∧
    (SysTick_Start s).regs.SYSTICK_RELOAD_REG = s.regs.SYSTICK_RELOAD_REG ∧
    (SysTick_Start s).regs.SYSTICK_CURRENT_REG = s.regs.SYSTICK_CURRENT_REG ∧
    (SysTick_Start s).trace =
      s.trace ++ [Event.store Reg.CTRL (s.regs.SYSTICK_CTRL_REG ||| 1)] := by
  rw [SysTick_Start_regs s h]
  refine ⟨?_, ?_, rfl, rfl, SysTick_Start_trace s h⟩
  · show (clearCountFlag (s.regs.SYSTICK_CTRL_REG ||| 1)).testBit 0 = true
    rw [startCell_testBit h]
    simp
  · intro i hi hi2
    show (clearCountFlag (s.regs.SYSTICK_CTRL_REG ||| 1)).testBit i = _
    rw [startCell_testBit h]
    simp [hi, hi2]

/-- Witness of C11: registers as some reset might leave them, no Init performed. -/
theorem C11_start_frame_witness :
    (initial ⟨6, 4095, 77⟩).regs.SYSTICK_CTRL_REG < 4294967296 ∧
    ((SysTick_Start (initial ⟨6, 4095, 77⟩)).regs.SYSTICK_CTRL_REG.testBit 0 = true ∧
      (∀ i, i ≠ 0 → i ≠ 16 →
        (SysTick_Start (initial ⟨6, 4095, 77⟩)).regs.SYSTICK_CTRL_REG.testBit i =
          (initial ⟨6, 4095, 77⟩).regs.SYSTICK_CTRL_REG.testBit i) ∧
      (SysTick_Start (initial ⟨6, 4095, 77⟩)).regs.SYSTICK_RELOAD_REG =
        (initial ⟨6, 4095, 77⟩).regs.SYSTICK_RELOAD_REG ∧
      (SysTick_Start (initial ⟨6, 4095, 77⟩)).regs.SYSTICK_CURRENT_REG =
        (initial ⟨6, 4095, 77⟩).regs.SYSTICK_CURRENT_REG ∧
      (SysTick_Start (initial ⟨6, 4095, 77⟩)).trace =
        (initial ⟨6, 4095, 77⟩).trace ++
          [Event.store Reg.CTRL ((initial ⟨6, 4095, 77⟩).regs.SYSTICK_CTRL_REG ||| 1)]) ∧
    (SysTick_Start (initial ⟨6, 4095, 77⟩)).regs = ⟨7, 4095, 77⟩ := by
  refine ⟨?_, ?_, ?_⟩
  · decide
  · exact C11_start_frame (initial ⟨6, 4095, 77⟩) (by decide)
  · decide

/-- Counterexample to C12 as stated: at duration 0 the expression the code evaluates is
the `int` value -1, not the unsigned wrap 4294967295 of the specification, and it is not
greater than `0x00FFFFFF`: the first comparison of the range check is false there. -/
theorem C12_counterexample :
    ticksExpr (toUint16 0) = -1 ∧
    ¬ (ticksExpr (toUint16 0) > 0x00FFFFFF) ∧
    unsignedTicks 0 = 4294967295 ∧
    ticksExpr (toUint16 0) ≠ (unsignedTicks 0 : Int) := by
  refine ⟨?_, ?_, ?_, ?_⟩ <;> decide

/-- C12 (amended): for duration 0 the expression `16000 * a - 1` is evaluated in `int` and
is -1, with no wrap-around; -1 is not greater than `0x00FFFFFF`, and it is the second
comparison of the range check, `< 0x01`, that holds; so `SysTick_Init` and
`SysTick_StartBusyWait` reject the call and leave the machine unchanged. -/
theorem C12_zero_rejected_by_lower_bound (s : Machine) (reads : List Nat) :
    ticksExpr (toUint16 0) = 16000 * 0 - 1 ∧
    decide (ticksExpr (toUint16 0) > 0x00FFFFFF) = false ∧
    decide (ticksExpr (toUint16 0) < 0x01) = true ∧
    outOfRange (toUint16 0) = true ∧
    SysTick_Init s 0 = s ∧
    SysTick_StartBusyWait reads s 0 = { state := s, returned := true } := by
  have ho : outOfRange (toUint16 0) = true := by decide
  refine ⟨by decide, by decide, by decide, ho, ?_, ?_⟩
  · rw [SysTick_Init_def, if_pos ho]
  · rw [SysTick_StartBusyWait_def, if_pos ho]

/-- The history of the poll loop: the loads made, which are the first of the values
returned by the hardware. -/
theorem pollLoop_trace (reads : List Nat) :
    ∀ s : Machine, ∃ k, k ≤ reads.length ∧
      (pollLoop s reads).state.trace = s.trace ++ (reads.take k).map Event.poll := by
  induction reads with
  | nil =>
    intro s
    exact ⟨0, Nat.le_refl 0, by simp [pollLoop]⟩
  | cons v rest ih =>
    intro s
    unfold pollLoop
    by_cases hv : v &&& (1 <<< 16) ≠ 0
    · rw [if_pos hv]
      exact ⟨1, by simp, by simp⟩
    · rw [if_neg hv]
      obtain ⟨k, hk, hk2⟩ := ih { s with trace := s.trace ++ [Event.poll v] }
      refine ⟨k + 1, by simpa using hk, ?_⟩
      rw [hk2]
      simp

/-- Loads of the poll loop are no stores. -/
theorem quietStores_poll (c : Nat) (l : List Nat) :
    quietStores c (l.map Event.poll) = true := by
  induction l with
  | nil => rfl
  | cons v rest ih =>
    simp only [List.map_cons, quietStores]
    exact ih

/-- C13: for every duration `1 ≤ d ≤ 1048` the stores of `SysTick_Init` are, in this
order: control := 0, reload := `16000 * d - 1`, current := 0, control := 7 (enable,
interrupt-enable and clock-source set); the stores of `SysTick_StartBusyWait` are the
same with control := 5 (interrupt-enable clear) as the last one, followed only by loads
of the poll loop. In both, every store to the reload or current register happens while
the enable bit last stored to the control register is clear, whatever the prior control
value was. -/
theorem C13_store_order (s : Machine) (reads : List Nat) (d : Nat)
    (h1 : 1 ≤ d) (h2 : d ≤ 1048) :
    (SysTick_Init s d).trace =
      s.trace ++ [Event.store Reg.CTRL 0, Event.store Reg.RELOAD (16000 * d - 1),
        Event.store Reg.CURRENT 0, Event.store Reg.CTRL 7] ∧
    quietStores s.regs.SYSTICK_CTRL_REG
      [Event.store Reg.CTRL 0, Event.store Reg.RELOAD (16000 * d - 1),
        Event.store Reg.CURRENT 0, Event.store Reg.CTRL 7] = true ∧
    ∃ k, k ≤ reads.length ∧
      (SysTick_StartBusyWait reads s d).state.trace =
        s.trace ++ [Event.store Reg.CTRL 0, Event.store Reg.RELOAD (16000 * d - 1),
          Event.store Reg.CURRENT 0, Event.store Reg.CTRL 5] ++
          (reads.take k).map Event.poll ∧
      quietStores s.regs.SYSTICK_CTRL_REG
        ([Event.store Reg.CTRL 0, Event.store Reg.RELOAD (16000 * d - 1),
          Event.store Reg.CURRENT 0, Event.store Reg.CTRL 5] ++
          (reads.take k).map Event.poll) = true := by
  have hz : Nat.testBit 0 0 = false := by decide
  refine ⟨?_, ?_, ?_⟩
  · rw [SysTick_Init_valid s d h1 h2]
  · simp only [quietStores, hz, Bool.not_false, Bool.and_self]
  · rw [SysTick_StartBusyWait_valid reads s d h1 h2]
    obtain ⟨k, hk, hk2⟩ := pollLoop_trace reads
      { regs := { SYSTICK_CTRL_REG := 5, SYSTICK_RELOAD_REG := 16000 * d - 1,
                  SYSTICK_CURRENT_REG := 0 }
        g_SysTickCallBackPtr := s.g_SysTickCallBackPtr
        trace := s.trace ++ [Event.store Reg.CTRL 0,
          Event.store Reg.RELOAD (16000 * d - 1), Event.store Reg.CURRENT 0,
          Event.store Reg.CTRL 5] }
    refine ⟨k, hk, hk2, ?_⟩
    simp only [List.cons_append, List.nil_append, quietStores, hz, Bool.not_false,
      Bool.true_and]
    exact quietStores_poll 5 (reads.take k)

/-- Witness of C13: duration 10 on a machine whose timer is running (control 7), with
one poll load that returns the COUNT flag. -/
theorem C13_store_order_witness :
    (1 ≤ 10 ∧ 10 ≤ 1048) ∧
    (SysTick_Init (initial ⟨7, 15999, 40⟩) 10).trace =
      [Event.store Reg.CTRL 0, Event.store Reg.RELOAD 159999, Event.store Reg.CURRENT 0,
        Event.store Reg.CTRL 7] ∧
    (SysTick_StartBusyWait [65541] (initial ⟨7, 15999, 40⟩) 10).state.trace =
      [Event.store Reg.CTRL 0, Event.store Reg.RELOAD 159999, Event.store Reg.CURRENT 0,
        Event.store Reg.CTRL 5, Event.poll 65541] ∧
    quietStores 7 (SysTick_Init (initial ⟨7, 15999, 40⟩) 10).trace = true := by
  refine ⟨by decide, ?_, ?_, ?_⟩
  · exact (C13_store_order (initial ⟨7, 15999, 40⟩) [65541] 10 (by decide) (by decide)).1
  · decide
  · decide

theorem SysTick_Init_ptr (s : Machine) (a : Nat) :
    (SysTick_Init s a).g_SysTickCallBackPtr = s.g_SysTickCallBackPtr := by
  rw [SysTick_Init_def]
  by_cases ho : outOfRange (toUint16 a) = true
  · rw [if_pos ho]
  · rw [if_neg ho, store_ptr, load_ptr, store_ptr, store_ptr, store_ptr]

theorem SysTick_StartBusyWait_ptr (reads : List Nat) (s : Machine) (a : Nat) :
    (SysTick_StartBusyWait reads s a).state.g_SysTickCallBackPtr =
      s.g_SysTickCallBackPtr := by
  rw [SysTick_StartBusyWait_def]
  by_cases ho : outOfRange (toUint16 a) = true
  · rw [if_pos ho]
  · rw [if_neg ho, pollLoop_ptr, store_ptr, load_ptr, store_ptr, store_ptr, store_ptr]

theorem SysTick_Handler_ptr (s : Machine) :
    (SysTick_Handler s).g_SysTickCallBackPtr = s.g_SysTickCallBackPtr := by
  by_cases hp : s.g_SysTickCallBackPtr ≠ NULL_PTR
  · rw [SysTick_Handler, if_pos hp]
  · rw [SysTick_Handler, if_neg hp]

theorem step_Init (s : Machine) (a : Nat) :
    step s (Call.Init a) = { state := SysTick_Init s a, returned := true } := rfl
theorem step_StartBusyWait (s : Machine) (reads : List Nat) (a : Nat) :
    step s (Call.StartBusyWait reads a) = SysTick_StartBusyWait reads s a := rfl
theorem step_Handler (s : Machine) :
    step s Call.Handler = { state := SysTick_Handler s, returned := true } := rfl
theorem step_SetCallBack (s : Machine) (f : Nat) :
    step s (Call.SetCallBack f) = { state := SysTick_SetCallBack s f, returned := true } := rfl
theorem step_Stop (s : Machine) :
    step s Call.Stop = { state := SysTick_Stop s, returned := true } := rfl
theorem step_Start (s : Machine) :
    step s Call.Start = { state := SysTick_Start s, returned := true } := rfl
theorem step_DeInit (s : Machine) :
    step s Call.DeInit = { state := SysTick_DeInit s, returned := true } := rfl
theorem run_cons (s : Machine) (c : Call) (cs : List Call) :
    run s (c :: cs) = run (step s c).state cs := rfl

/-- A call other than `SysTick_SetCallBack` leaves the callback pointer as it was. -/
theorem step_ptr (s : Machine) (c : Call) (h : c.isSetCallBack = false) :
    (step s c).state.g_SysTickCallBackPtr = s.g_SysTickCallBackPtr := by
  cases c with
  | Init a =>
    rw [step_Init]
    exact SysTick_Init_ptr s a
  | StartBusyWait reads a =>
    rw [step_StartBusyWait]
    exact SysTick_StartBusyWait_ptr reads s a
  | Handler =>
    rw [step_Handler]
    exact SysTick_Handler_ptr s
  | SetCallBack f => exact Bool.noConfusion h
  | Stop =>
    rw [step_Stop]
    show (SysTick_Stop s).g_SysTickCallBackPtr = s.g_SysTickCallBackPtr
    rw [SysTick_Stop, store_ptr, load_ptr]
  | Start =>
    rw [step_Start]
    show (SysTick_Start s).g_SysTickCallBackPtr = s.g_SysTickCallBackPtr
    rw [SysTick_Start, store_ptr, load_ptr]
  | DeInit =>
    rw [step_DeInit]
    show (SysTick_DeInit s).g_SysTickCallBackPtr = s.g_SysTickCallBackPtr
    rw [SysTick_DeInit_eq]


theorem run_ptr (cs : List Call) :
    ∀ s : Machine, (∀ c ∈ cs, c.isSetCallBack = false) →
      (run s cs).g_SysTickCallBackPtr = s.g_SysTickCallBackPtr := by
  induction cs with
  | nil => intro s _; rfl
  | cons c rest ih =>
    intro s h
    rw [run_cons, ih (step s c).state (fun x hx => h x (List.mem_cons_of_mem c hx)),
      step_ptr s c (h c (List.mem_cons_self c rest))]

/-- C15: in the initial state of the driver, whatever the registers hold, the callback
pointer is `NULL_PTR`, and it is still `NULL_PTR` after any sequence of calls none of
which is `SysTick_SetCallBack`. From the initial state `SysTick_Init(10)` sets reload to
159999, and a following `SysTick_Handler` calls nothing and leaves the machine (control,
reload, current, callback pointer and history) as it was. -/
theorem C15_initial_slot_empty (r : Regs) (cs : List Call)
    (h : ∀ c ∈ cs, c.isSetCallBack = false) :
    (initial r).g_SysTickCallBackPtr = NULL_PTR ∧
    (run (initial r) cs).g_SysTickCallBackPtr = NULL_PTR ∧
    (SysTick_Init (initial r) 10).regs.SYSTICK_RELOAD_REG = 159999 ∧
    SysTick_Handler (SysTick_Init (initial r) 10) = SysTick_Init (initial r) 10 := by
  refine ⟨rfl, ?_, ?_, ?_⟩
  · rw [run_ptr cs (initial r) h]
    rfl
  · rw [SysTick_Init_valid (initial r) 10 (by decide) (by decide)]
  · have hp : ¬ ((SysTick_Init (initial r) 10).g_SysTickCallBackPtr ≠ NULL_PTR) := by
      rw [SysTick_Init_ptr]
      exact fun hne => hne rfl
    rw [SysTick_Handler, if_neg hp]

/-- Witness of C15: all-zero registers; an Init, two interrupts, a stop and a start. -/
theorem C15_initial_slot_empty_witness :
    (∀ c ∈ [Call.Init 10, Call.Handler, Call.Handler, Call.Stop, Call.Start],
      Call.isSetCallBack c = false) ∧
    ((initial ⟨0, 0, 0⟩).g_SysTickCallBackPtr = NULL_PTR ∧
      (run (initial ⟨0, 0, 0⟩)
        [Call.Init 10, Call.Handler, Call.Handler, Call.Stop, Call.Start]).g_SysTickCallBackPtr
        = NULL_PTR ∧
      (SysTick_Init (initial ⟨0, 0, 0⟩) 10).regs.SYSTICK_RELOAD_REG = 159999 ∧
      SysTick_Handler (SysTick_Init (initial ⟨0, 0, 0⟩) 10) =
        SysTick_Init (initial ⟨0, 0, 0⟩) 10) := by
  have h : ∀ c ∈ [Call.Init 10, Call.Handler, Call.Handler, Call.Stop, Call.Start],
      Call.isSetCallBack c = false := by
    intro c hc
    simp only [List.mem_cons, List.mem_singleton, List.not_mem_nil, or_false] at hc
    rcases hc with hc | hc | hc | hc | hc <;> subst hc <;> rfl
  exact ⟨h, C15_initial_slot_empty ⟨0, 0, 0⟩
    [Call.Init 10, Call.Handler, Call.Handler, Call.Stop, Call.Start] h⟩

/-- C16: for every 16-bit duration `d` the product `16000 * d` and the difference
`16000 * d - 1`, evaluated in 32-bit `int`, are the mathematical values (no overflow)
and the difference lies between -1 and 1048559999; the guard of `SysTick_Init` and
`SysTick_StartBusyWait` in machine arithmetic equals the guard over the mathematical
integers, and it accepts `d` exactly when `1 ≤ d ≤ 1048`. -/
theorem C16_guard_no_overflow (d : Nat) (h : d ≤ 65535) :
    toUint16 d = d ∧
    wrapInt (16000 * (d : Int)) = 16000 * (d : Int) ∧
    ticksExpr d = 16000 * (d : Int) - 1 ∧
    -1 ≤ ticksExpr d ∧ ticksExpr d ≤ 1048559999 ∧
    outOfRange d = outOfRangeMath d ∧
    (outOfRange (toUint16 d) = false ↔ 1 ≤ d ∧ d ≤ 1048) := by
  have e := ticksExpr_eq d (by omega)
  refine ⟨toUint16_of_le h, ?_, e, ?_, ?_, ?_, ?_⟩
  · unfold wrapInt
    omega
  · rw [e]; omega
  · rw [e]; omega
  · unfold outOfRange outOfRangeMath
    rw [e]
  · rw [toUint16_of_le h]
    constructor
    · intro hf
      by_contra hn
      have ht : outOfRange d = true := outOfRange_eq_true (by omega)
      rw [hf] at ht
      exact Bool.noConfusion ht
    · intro hd
      exact outOfRange_eq_false hd.1 hd.2

/-- Witness of C16: the largest 16-bit duration, 65535, where the expression is
1048559999. -/
theorem C16_guard_no_overflow_witness :
    (65535 ≤ 65535) ∧
    (toUint16 65535 = 65535 ∧
      wrapInt (16000 * ((65535 : Nat) : Int)) = 16000 * ((65535 : Nat) : Int) ∧
      ticksExpr 65535 = 16000 * ((65535 : Nat) : Int) - 1 ∧
      -1 ≤ ticksExpr 65535 ∧ ticksExpr 65535 ≤ 1048559999 ∧
      outOfRange 65535 = outOfRangeMath 65535 ∧
      (outOfRange (toUint16 65535) = false ↔ 1 ≤ 65535 ∧ 65535 ≤ 1048)) ∧
    ticksExpr 65535 = 1048559999 := by
  refine ⟨by decide, ?_, by decide⟩
  exact C16_guard_no_overflow 65535 (by decide)

theorem toUint16_idem (a : Nat) : toUint16 (toUint16 a) = toUint16 a := by
  unfold toUint16
  omega

theorem toUint16_le (a : Nat) : toUint16 a ≤ 65535 := by
  unfold toUint16
  omega

/-- The functions see their argument only as a `uint16`. -/
theorem SysTick_Init_toUint16 (s : Machine) (a : Nat) :
    SysTick_Init s a = SysTick_Init s (toUint16 a) := by
  rw [SysTick_Init_def s a, SysTick_Init_def s (toUint16 a), toUint16_idem]

theorem SysTick_StartBusyWait_toUint16 (reads : List Nat) (s : Machine) (a : Nat) :
    SysTick_StartBusyWait reads s a = SysTick_StartBusyWait reads s (toUint16 a) := by
  rw [SysTick_StartBusyWait_def reads s a, SysTick_StartBusyWait_def reads s (toUint16 a),
    toUint16_idem]

/-- A `uint16` value the guard accepts is a duration from 1 to 1048. -/
theorem accepted_range {d : Nat} (h : d ≤ 65535) (ho : ¬ outOfRange d = true) :
    1 ≤ d ∧ d ≤ 1048 := by
  by_contra hn
  exact ho (outOfRange_eq_true (by omega))

/-- For any argument, `SysTick_Init` either leaves the registers or programs them for an
accepted duration. -/
theorem SysTick_Init_regs_cases (s : Machine) (a : Nat) :
    (SysTick_Init s a).regs = s.regs ∨
    ∃ d, 1 ≤ d ∧ d ≤ 1048 ∧
      (SysTick_Init s a).regs =
        { SYSTICK_CTRL_REG := 7, SYSTICK_RELOAD_REG := 16000 * d - 1,
          SYSTICK_CURRENT_REG := 0 } := by
  by_cases ho : outOfRange (toUint16 a) = true
  · left
    rw [SysTick_Init_def, if_pos ho]
  · right
    have hd := accepted_range (toUint16_le a) ho
    refine ⟨toUint16 a, hd.1, hd.2, ?_⟩
    rw [SysTick_Init_toUint16, SysTick_Init_valid s (toUint16 a) hd.1 hd.2]

/-- For any argument and any poll loads, `SysTick_StartBusyWait` either leaves the
registers or programs them for an accepted duration. -/
theorem SysTick_StartBusyWait_regs_cases (reads : List Nat) (s : Machine) (a : Nat) :
    (SysTick_StartBusyWait reads s a).state.regs = s.regs ∨
    ∃ d, 1 ≤ d ∧ d ≤ 1048 ∧
      (SysTick_StartBusyWait reads s a).state.regs =
        { SYSTICK_CTRL_REG := 5, SYSTICK_RELOAD_REG := 16000 * d - 1,
          SYSTICK_CURRENT_REG := 0 } := by
  by_cases ho : outOfRange (toUint16 a) = true
  · left
    rw [SysTick_StartBusyWait_def, if_pos ho]
  · right
    have hd := accepted_range (toUint16_le a) ho
    refine ⟨toUint16 a, hd.1, hd.2, ?_⟩
    rw [SysTick_StartBusyWait_toUint16,
      SysTick_StartBusyWait_valid reads s (toUint16 a) hd.1 hd.2, pollLoop_regs]

theorem SysTick_Handler_regs (s : Machine) : (SysTick_Handler s).regs = s.regs := by
  by_cases hp : s.g_SysTickCallBackPtr ≠ NULL_PTR
  · rw [SysTick_Handler, if_pos hp]
  · rw [SysTick_Handler, if_neg hp]

theorem RegsInv_bound {r : Regs} (h : RegsInv r) : r.SYSTICK_CTRL_REG < 4294967296 := by
  obtain ⟨c, f, hcf, hf, hc⟩ := h
  have hm : c < 8 := by
    rcases hc with ⟨hc1, -⟩ | ⟨hc1, -⟩ <;> omega
  clear hc
  omega

/-- The control value after `SysTick_Stop`, on the values of the invariant. -/
theorem stopCell_val (c f : Nat) (hc : c = 0 ∨ c = 1 ∨ c = 4 ∨ c = 5 ∨ c = 6 ∨ c = 7)
    (hf : f = 0 ∨ f = 65536) :
    clearCountFlag ((c + f) &&& 4294967294) = c - c % 2 := by
  rcases hc with rfl | rfl | rfl | rfl | rfl | rfl <;> rcases hf with rfl | rfl <;> decide

/-- The control value after `SysTick_Start`, on the values of the invariant. -/
theorem startCell_val (c f : Nat) (hc : c = 0 ∨ c = 1 ∨ c = 4 ∨ c = 5 ∨ c = 6 ∨ c = 7)
    (hf : f = 0 ∨ f = 65536) :
    clearCountFlag ((c + f) ||| 1) = c - c % 2 + 1 := by
  rcases hc with rfl | rfl | rfl | rfl | rfl | rfl <;> rcases hf with rfl | rfl <;> decide

/-- The control value after the hardware has set the count flag, on the values of the
invariant. -/
theorem countCell_val (c f : Nat) (hc : c = 0 ∨ c = 1 ∨ c = 4 ∨ c = 5 ∨ c = 6 ∨ c = 7)
    (hf : f = 0 ∨ f = 65536) :
    (c + f) ||| COUNT_FLAG = c + 65536 := by
  rcases hc with rfl | rfl | rfl | rfl | rfl | rfl <;> rcases hf with rfl | rfl <;> decide

/-- Clearing the enable bit keeps the invariant. -/
theorem RegsInv_stop {r : Regs} (h : RegsInv r) :
    RegsInv { r with SYSTICK_CTRL_REG := clearCountFlag (r.SYSTICK_CTRL_REG &&& 4294967294) } := by
  obtain ⟨c, f, hcf, hf, hc⟩ := h
  have hm : c = 0 ∨ c = 1 ∨ c = 4 ∨ c = 5 ∨ c = 6 ∨ c = 7 := by
    rcases hc with ⟨hc1, -⟩ | ⟨hc1, -⟩ <;> omega
  have hv := stopCell_val c f hm hf
  refine ⟨c - c % 2, 0, ?_, Or.inl rfl, ?_⟩
  · show clearCountFlag (r.SYSTICK_CTRL_REG &&& 4294967294) = c - c % 2
    rw [hcf, hv]
  · rcases hc with ⟨hc, hr⟩ | ⟨hc, hd⟩
    · exact Or.inl ⟨by omega, hr⟩
    · exact Or.inr ⟨by omega, hd⟩

/-- Setting the enable bit keeps the invariant. -/
theorem RegsInv_start {r : Regs} (h : RegsInv r) :
    RegsInv { r with SYSTICK_CTRL_REG := clearCountFlag (r.SYSTICK_CTRL_REG ||| 1) } := by
  obtain ⟨c, f, hcf, hf, hc⟩ := h
  have hm : c = 0 ∨ c = 1 ∨ c = 4 ∨ c = 5 ∨ c = 6 ∨ c = 7 := by
    rcases hc with ⟨hc1, -⟩ | ⟨hc1, -⟩ <;> omega
  have hv := startCell_val c f hm hf
  refine ⟨c - c % 2 + 1, 0, ?_, Or.inl rfl, ?_⟩
  · show clearCountFlag (r.SYSTICK_CTRL_REG ||| 1) = c - c % 2 + 1
    rw [hcf, hv]
  · rcases hc with ⟨hc, hr⟩ | ⟨hc, hd⟩
    · exact Or.inl ⟨by omega, hr⟩
    · exact Or.inr ⟨by omega, hd⟩

/-- The hardware setting the count flag keeps the invariant. -/
theorem RegsInv_count (s : Machine) (h : RegsInv s.regs) : RegsInv (hardwareCount s).regs := by
  unfold hardwareCount
  by_cases hb : s.regs.SYSTICK_CTRL_REG.testBit 0 = true
  · rw [if_pos hb]
    obtain ⟨c, f, hcf, hf, hc⟩ := h
    have hm : c = 0 ∨ c = 1 ∨ c = 4 ∨ c = 5 ∨ c = 6 ∨ c = 7 := by
      rcases hc with ⟨hc1, -⟩ | ⟨hc1, -⟩ <;> omega
    have hv := countCell_val c f hm hf
    refine ⟨c, 65536, ?_, Or.inr rfl, hc⟩
    show s.regs.SYSTICK_CTRL_REG ||| COUNT_FLAG = c + 65536
    rw [hcf, hv]
  · rw [if_neg hb]
    exact h

/-- Every call keeps the invariant of the registers. -/
theorem step_inv (s : Machine) (c : Call) (h : RegsInv s.regs) :
    RegsInv (step s c).state.regs := by
  cases c with
  | Init a =>
    rw [step_Init]
    show RegsInv (SysTick_Init s a).regs
    rcases SysTick_Init_regs_cases s a with e | ⟨d, h1, h2, e⟩
    · rw [e]; exact h
    · rw [e]
      exact ⟨7, 0, rfl, Or.inl rfl, Or.inr ⟨Or.inr (Or.inr (Or.inr rfl)), d, h1, h2, rfl⟩⟩
  | StartBusyWait reads a =>
    rw [step_StartBusyWait]
    rcases SysTick_StartBusyWait_regs_cases reads s a with e | ⟨d, h1, h2, e⟩
    · rw [e]; exact h
    · rw [e]
      exact ⟨5, 0, rfl, Or.inl rfl, Or.inr ⟨Or.inr (Or.inl rfl), d, h1, h2, rfl⟩⟩
  | Handler =>
    rw [step_Handler]
    show RegsInv (SysTick_Handler s).regs
    rw [SysTick_Handler_regs]
    exact h
  | SetCallBack f =>
    rw [step_SetCallBack]
    exact h
  | Stop =>
    rw [step_Stop]
    show RegsInv (SysTick_Stop s).regs
    rw [SysTick_Stop_regs]
    exact RegsInv_stop h
  | Start =>
    rw [step_Start]
    show RegsInv (SysTick_Start s).regs
    rw [SysTick_Start_regs s (RegsInv_bound h)]
    exact RegsInv_start h
  | DeInit =>
    rw [step_DeInit]
    show RegsInv (SysTick_DeInit s).regs
    rw [SysTick_DeInit_eq]
    exact ⟨0, 0, rfl, Or.inl rfl, Or.inl ⟨Or.inl rfl, rfl⟩⟩

theorem act_call (s : Machine) (c : Call) : act s (Action.call c) = (step s c).state := rfl

theorem act_hardwareCount (s : Machine) : act s Action.hardwareCount = hardwareCount s := rfl

theorem history_cons (s : Machine) (a : Action) (as : List Action) :
    history s (a :: as) = history (act s a) as := rfl

/-- Every action keeps the invariant of the registers. -/
theorem act_inv (s : Machine) (a : Action) (h : RegsInv s.regs) : RegsInv (act s a).regs := by
  cases a with
  | call c =>
    rw [act_call]
    exact step_inv s c h
  | hardwareCount =>
    rw [act_hardwareCount]
    exact RegsInv_count s h

theorem history_inv (as : List Action) :
    ∀ s : Machine, RegsInv s.regs → RegsInv (history s as).regs := by
  induction as with
  | nil => intro s h; exact h
  | cons a rest ih =>
    intro s h
    rw [history_cons]
    exact ih (act s a) (act_inv s a h)

theorem RegsInv_zero : RegsInv (initial ⟨0, 0, 0⟩).regs :=
  ⟨0, 0, rfl, Or.inl rfl, Or.inl ⟨Or.inl rfl, rfl⟩⟩

/-- Bits of a configuration `c` below 8 with the count flag set. -/
theorem testBit_add_flag {c : Nat} (hc : c < 8) (i : Nat) :
    (c + 65536).testBit i = (c.testBit i || decide (i = 16)) := by
  have e : c + 65536 = 2 ^ 16 + c := by norm_num; omega
  rw [e]
  rcases Nat.lt_trichotomy i 16 with hi | hi | hi
  · have hne : ¬ i = 16 := by omega
    rw [Nat.testBit_two_pow_add_gt hi]
    simp [hne]
  · subst hi
    have hcf : c.testBit 16 = false := by
      apply Nat.testBit_lt_two_pow
      omega
    rw [Nat.testBit_two_pow_add_eq, hcf]
    rfl
  · have hne : ¬ i = 16 := by omega
    have h1 : (2 ^ 16 + c).testBit i = false := by
      apply Nat.testBit_lt_two_pow
      calc 2 ^ 16 + c < 2 ^ 17 := by norm_num; omega
        _ ≤ 2 ^ i := Nat.pow_le_pow_right (by norm_num) (by omega)
    have h2 : c.testBit i = false := by
      apply Nat.testBit_lt_two_pow
      calc c < 2 ^ 3 := by norm_num; omega
        _ ≤ 2 ^ i := Nat.pow_le_pow_right (by norm_num) (by omega)
    rw [h1, h2]
    simp [hne]

/-- Bits of a control value of the invariant: those of the configuration, and bit 16. -/
theorem testBit_config {c f : Nat} (hc : c < 8) (hf : f = 0 ∨ f = 65536) (i : Nat)
    (hi : i ≠ 16) : (c + f).testBit i = c.testBit i := by
  rcases hf with rfl | rfl
  · rfl
  · rw [testBit_add_flag hc]
    simp [hi]

/-- Counterexample to C17 as stated: from all-zero registers, after `SysTick_Init(10)`
the timer runs, and once it has counted to zero the control register is `0x10007`: bit
16, the count flag, is set, a bit outside bits 0..2. -/
theorem C17_counterexample :
    (history (initial ⟨0, 0, 0⟩)
      [Action.call (Call.Init 10), Action.hardwareCount]).regs.SYSTICK_CTRL_REG = 65543 ∧
    ¬ (∀ i, 3 ≤ i →
      (history (initial ⟨0, 0, 0⟩)
        [Action.call (Call.Init 10), Action.hardwareCount]).regs.SYSTICK_CTRL_REG.testBit i
        = false) := by
  have e : (history (initial ⟨0, 0, 0⟩)
      [Action.call (Call.Init 10), Action.hardwareCount]).regs.SYSTICK_CTRL_REG = 65543 := by
    decide
  refine ⟨e, ?_⟩
  intro hall
  have h16 := hall 16 (by decide)
  rw [e] at h16
  have e2 : Nat.testBit 65543 16 = true := by decide
  rw [e2] at h16
  exact Bool.noConfusion h16

/-- C17 (amended): from all-zero registers, after any finite sequence of calls of
`SysTick_Init`, `SysTick_StartBusyWait`, `SysTick_Stop`, `SysTick_Start`,
`SysTick_DeInit`, `SysTick_SetCallBack` (and `SysTick_Handler`) with arbitrary arguments
and poll loads, with the hardware counting to zero any number of times in between, the
control register has no bit set outside bits 0..2 and the count flag (bit 16); the
reload register is 0 or `16000 * d - 1` for some `1 ≤ d ≤ 1048`, and is below `2^24`;
and whenever bit 1 (interrupt-enable) or bit 2 (clock-source) of the control register is
set, the reload register is at least 1. -/
theorem C17_reachable_invariant (as : List Action) :
    (∀ i, 3 ≤ i → i ≠ 16 →
      (history (initial ⟨0, 0, 0⟩) as).regs.SYSTICK_CTRL_REG.testBit i = false) ∧
    ((history (initial ⟨0, 0, 0⟩) as).regs.SYSTICK_RELOAD_REG = 0 ∨
      ∃ d, 1 ≤ d ∧ d ≤ 1048 ∧
        (history (initial ⟨0, 0, 0⟩) as).regs.SYSTICK_RELOAD_REG = 16000 * d - 1) ∧
    (history (initial ⟨0, 0, 0⟩) as).regs.SYSTICK_RELOAD_REG < 16777216 ∧
    (((history (initial ⟨0, 0, 0⟩) as).regs.SYSTICK_CTRL_REG.testBit 1 = true ∨
        (history (initial ⟨0, 0, 0⟩) as).regs.SYSTICK_CTRL_REG.testBit 2 = true) →
      1 ≤ (history (initial ⟨0, 0, 0⟩) as).regs.SYSTICK_RELOAD_REG) := by
  obtain ⟨c, f, hcf, hf, hc⟩ := history_inv as (initial ⟨0, 0, 0⟩) RegsInv_zero
  have hm : c < 8 := by
    rcases hc with ⟨hc1, -⟩ | ⟨hc1, -⟩ <;> omega
  have t01 : Nat.testBit 0 1 = false := by decide
  have t02 : Nat.testBit 0 2 = false := by decide
  have t11 : Nat.testBit 1 1 = false := by decide
  have t12 : Nat.testBit 1 2 = false := by decide
  refine ⟨?_, ?_, ?_, ?_⟩
  · intro i hi hi2
    rw [hcf, testBit_config hm hf i hi2]
    apply Nat.testBit_lt_two_pow
    calc c < 2 ^ 3 := by norm_num; omega
      _ ≤ 2 ^ i := Nat.pow_le_pow_right (by norm_num) hi
  · rcases hc with ⟨_, hr⟩ | ⟨_, hd⟩
    · exact Or.inl hr
    · exact Or.inr hd
  · rcases hc with ⟨_, hr⟩ | ⟨_, d, h1, h2, hd⟩
    · rw [hr]; norm_num
    · rw [hd]; omega
  · intro hbit
    rw [hcf, testBit_config hm hf 1 (by decide), testBit_config hm hf 2 (by decide)] at hbit
    rcases hc with ⟨hc1 | hc1, _⟩ | ⟨_, d, h1, h2, hd⟩
    · rw [hc1, t01, t02] at hbit
      rcases hbit with hx | hx <;> exact Bool.noConfusion hx
    · rw [hc1, t11, t12] at hbit
      rcases hbit with hx | hx <;> exact Bool.noConfusion hx
    · rw [hd]; omega

/-- Witness of C17: an interrupt-mode configuration, the timer counting to zero, a stop,
a start, a rejected busy wait, the timer counting to zero again: control `0x10007`
(interrupt-enable and clock-source set, count flag set), reload 159999. -/
theorem C17_reachable_invariant_witness :
    (history (initial ⟨0, 0, 0⟩)
      [Action.call (Call.Init 10), Action.hardwareCount, Action.call Call.Stop,
        Action.call Call.Start, Action.call (Call.StartBusyWait [5] 0),
        Action.hardwareCount]).regs.SYSTICK_CTRL_REG.testBit 1 = true ∧
    1 ≤ (history (initial ⟨0, 0, 0⟩)
      [Action.call (Call.Init 10), Action.hardwareCount, Action.call Call.Stop,
        Action.call Call.Start, Action.call (Call.StartBusyWait [5] 0),
        Action.hardwareCount]).regs.SYSTICK_RELOAD_REG ∧
    (history (initial ⟨0, 0, 0⟩)
      [Action.call (Call.Init 10), Action.hardwareCount, Action.call Call.Stop,
        Action.call Call.Start, Action.call (Call.StartBusyWait [5] 0),
        Action.hardwareCount]).regs = ⟨65543, 159999, 0⟩ := by
  refine ⟨?_, ?_, ?_⟩
  · decide
  · exact (C17_reachable_invariant
      [Action.call (Call.Init 10), Action.hardwareCount, Action.call Call.Stop,
        Action.call Call.Start, Action.call (Call.StartBusyWait [5] 0),
        Action.hardwareCount]).2.2.2 (Or.inl (by decide))
  · decide

end SysTick
